import Mathlib

/-!
Shallow embedding of the dataflow-plan-to-SQL compiler in
`src/metricflow/plan_conversion/dataflow_to_sql.py`.

The instance/spec data model, the instance-set transforms
(`instance_converters.py`), the select-column generators and the
`SqlEngine` enumeration are parts of the repository that are not under
`src/`; those definitions are modelled from the specification (sections 3,
4.2, 4.3 and 6 of `spec.md`) and carry a doc comment saying so.  Every
visitor handler is translated from `dataflow_to_sql.py` itself.
-/

namespace MetricFlow

/-- Aggregation state of a measure column, ordered
NON_AGGREGATED < PARTIAL < COMPLETE (spec section 3). -/
inductive AggregationState where
  | NON_AGGREGATED
  | PARTIAL
  | COMPLETE
deriving DecidableEq, Repr

/-- Numeric rank of an aggregation state under the order
NON_AGGREGATED < PARTIAL < COMPLETE. -/
def AggregationState.toInt : AggregationState → Nat
  | .NON_AGGREGATED => 0
  | .PARTIAL => 1
  | .COMPLETE => 2

/-- Aggregation functions of measures (spec section 4.1, aggregate-measures
handler); mirrors the closed `AggregationType` enumeration. -/
inductive AggregationType where
  | SUM
  | MIN
  | MAX
  | AVG
  | COUNT_DISTINCT
  | SUM_BOOLEAN
  | PERCENTILE
  | MEDIAN
  | COUNT
deriving DecidableEq, Repr

/-- Modelled from the spec: a measure spec is an element name
(spec section 3, "Spec"); the repository class `MeasureSpec` is not under
`src/`. -/
structure MeasureSpec where
  element_name : String
deriving DecidableEq, Repr

/-- Modelled from the spec: a dimension spec is an element name plus an
ordered tuple of entity links (spec section 3). -/
structure DimensionSpec where
  element_name : String
  entity_links : List String
deriving DecidableEq, Repr

/-- Modelled from the spec: a time-dimension spec additionally carries a
granularity, an optional date part and an optional aggregation state
(spec section 3; the aggregation-state field appears in
`dataflow_to_sql.py` line 1342). Granularities compare through their
`to_int` rank, embedded here directly as a natural number; date parts are
opaque and embedded as naturals. -/
structure TimeDimensionSpec where
  element_name : String
  entity_links : List String
  time_granularity : Nat
  date_part : Option Nat
  aggregation_state : Option AggregationState
deriving DecidableEq, Repr

/-- Modelled from the spec: an entity spec (spec section 3). -/
structure EntitySpec where
  element_name : String
  entity_links : List String
deriving DecidableEq, Repr

/-- Modelled from the spec: a metric spec (spec section 3). -/
structure MetricSpec where
  element_name : String
deriving DecidableEq, Repr

/-- Modelled from the spec: a group-by-metric spec, keyed by the entity
chain of the metric subquery (`visit_compute_metrics_node`,
`dataflow_to_sql.py` lines 650-662). -/
structure GroupByMetricSpec where
  element_name : String
  entity_links : List String
  metric_subquery_entity_links : List String
deriving DecidableEq, Repr

/-- Modelled from the spec: a metadata spec, an element name with an
optional aggregation type (`MetadataSpec.from_name` in
`visit_min_max_node` and `visit_add_generated_uuid_column_node`). -/
structure MetadataSpec where
  element_name : String
  agg_type : Option AggregationType
deriving DecidableEq, Repr

/-- Reserved element name for the synthetic metric-time dimension
(`METRIC_TIME_ELEMENT_NAME`). -/
def METRIC_TIME_ELEMENT_NAME : String := "metric_time"

/-- Modelled from the spec: a measure instance binds a measure spec to a
column plus an aggregation state and an optional fill-nulls-with integer
(spec section 3, "Instance"). -/
structure MeasureInstance where
  spec : MeasureSpec
  aggregation_state : AggregationState
  fill_nulls_with : Option Int
  column_name : String
deriving DecidableEq, Repr

/-- Modelled from the spec: a dimension instance (spec section 3). -/
structure DimensionInstance where
  spec : DimensionSpec
  column_name : String
deriving DecidableEq, Repr

/-- Modelled from the spec: a time-dimension instance (spec section 3). -/
structure TimeDimensionInstance where
  spec : TimeDimensionSpec
  column_name : String
deriving DecidableEq, Repr

/-- Modelled from the spec: an entity instance (spec section 3). -/
structure EntityInstance where
  spec : EntitySpec
  column_name : String
deriving DecidableEq, Repr

/-- Modelled from the spec: a metric instance (spec section 3). -/
structure MetricInstance where
  spec : MetricSpec
  column_name : String
deriving DecidableEq, Repr

/-- Modelled from the spec: a group-by-metric instance (spec section 3). -/
structure GroupByMetricInstance where
  spec : GroupByMetricSpec
  column_name : String
deriving DecidableEq, Repr

/-- Modelled from the spec: a metadata instance (spec section 3). -/
structure MetadataInstance where
  spec : MetadataSpec
  column_name : String
deriving DecidableEq, Repr

/-- Modelled from the spec: an instance set is an immutable bundle of the
instance tuples per category (spec section 3, "Instance set"); every field
defaults to the empty tuple, as relied upon by the `InstanceSet`
construction in `visit_metric_time_dimension_transform_node`
(`dataflow_to_sql.py` lines 1049-1055). -/
structure InstanceSet where
  measure_instances : List MeasureInstance := []
  dimension_instances : List DimensionInstance := []
  time_dimension_instances : List TimeDimensionInstance := []
  entity_instances : List EntityInstance := []
  metric_instances : List MetricInstance := []
  group_by_metric_instances : List GroupByMetricInstance := []
  metadata_instances : List MetadataInstance := []
deriving DecidableEq, Repr

/-- Modelled from the spec: `InstanceSet.merge` concatenates the instance
tuples of each category in order (spec section 3, "Supports merge"). -/
def mergeInstanceSets (sets : List InstanceSet) : InstanceSet :=
  { measure_instances := sets.flatMap (·.measure_instances)
    dimension_instances := sets.flatMap (·.dimension_instances)
    time_dimension_instances := sets.flatMap (·.time_dimension_instances)
    entity_instances := sets.flatMap (·.entity_instances)
    metric_instances := sets.flatMap (·.metric_instances)
    group_by_metric_instances := sets.flatMap (·.group_by_metric_instances)
    metadata_instances := sets.flatMap (·.metadata_instances) }

/-- Modelled from the spec: a spec set bundles the specs per category
(`InstanceSpecSet`). -/
structure SpecSet where
  measure_specs : List MeasureSpec := []
  dimension_specs : List DimensionSpec := []
  time_dimension_specs : List TimeDimensionSpec := []
  entity_specs : List EntitySpec := []
  metric_specs : List MetricSpec := []
  group_by_metric_specs : List GroupByMetricSpec := []
  metadata_specs : List MetadataSpec := []
deriving DecidableEq, Repr

/-- Modelled from the spec: projection of an instance set to its spec set
(spec section 3). -/
def InstanceSet.specSet (s : InstanceSet) : SpecSet :=
  { measure_specs := s.measure_instances.map (·.spec)
    dimension_specs := s.dimension_instances.map (·.spec)
    time_dimension_specs := s.time_dimension_instances.map (·.spec)
    entity_specs := s.entity_instances.map (·.spec)
    metric_specs := s.metric_instances.map (·.spec)
    group_by_metric_specs := s.group_by_metric_instances.map (·.spec)
    metadata_specs := s.metadata_instances.map (·.spec) }

/-- Modelled from the spec: the column-association resolver is a
deterministic function from semantic spec to physical column name
(spec sections 3 and 4.3), one component per spec category. -/
structure Resolver where
  measure : MeasureSpec → String
  dimension : DimensionSpec → String
  timeDimension : TimeDimensionSpec → String
  entity : EntitySpec → String
  metric : MetricSpec → String
  groupByMetric : GroupByMetricSpec → String
  metadata : MetadataSpec → String

/-- Modelled from the spec: `ChangeAssociatedColumns` re-resolves every
instance column name through the resolver (spec section 4.2). -/
def changeAssociatedColumns (r : Resolver) (s : InstanceSet) : InstanceSet :=
  { measure_instances :=
      s.measure_instances.map (fun m => { m with column_name := r.measure m.spec })
    dimension_instances :=
      s.dimension_instances.map (fun d => { d with column_name := r.dimension d.spec })
    time_dimension_instances :=
      s.time_dimension_instances.map (fun t => { t with column_name := r.timeDimension t.spec })
    entity_instances :=
      s.entity_instances.map (fun e => { e with column_name := r.entity e.spec })
    metric_instances :=
      s.metric_instances.map (fun m => { m with column_name := r.metric m.spec })
    group_by_metric_instances :=
      s.group_by_metric_instances.map (fun g => { g with column_name := r.groupByMetric g.spec })
    metadata_instances :=
      s.metadata_instances.map (fun m => { m with column_name := r.metadata m.spec }) }

/-- Modelled from the spec: `FilterElements` with an include-spec-set keeps
only the instances whose spec is in the include set (spec section 4.2). -/
def filterElements (include_specs : SpecSet) (s : InstanceSet) : InstanceSet :=
  { measure_instances :=
      s.measure_instances.filter (fun m => m.spec ∈ include_specs.measure_specs)
    dimension_instances :=
      s.dimension_instances.filter (fun d => d.spec ∈ include_specs.dimension_specs)
    time_dimension_instances :=
      s.time_dimension_instances.filter (fun t => t.spec ∈ include_specs.time_dimension_specs)
    entity_instances :=
      s.entity_instances.filter (fun e => e.spec ∈ include_specs.entity_specs)
    metric_instances :=
      s.metric_instances.filter (fun m => m.spec ∈ include_specs.metric_specs)
    group_by_metric_instances :=
      s.group_by_metric_instances.filter (fun g => g.spec ∈ include_specs.group_by_metric_specs)
    metadata_instances :=
      s.metadata_instances.filter (fun m => m.spec ∈ include_specs.metadata_specs) }

/-- Modelled from the spec: `FilterLinkableInstancesWithLeadingLink` drops
the linkable instances (dimensions, time dimensions, entities) whose first
entity link equals the given entity (spec section 4.2). -/
def filterLinkableInstancesWithLeadingLink (entity_link : String) (s : InstanceSet) : InstanceSet :=
  { s with
    dimension_instances :=
      s.dimension_instances.filter (fun d => d.spec.entity_links.head? ≠ some entity_link)
    time_dimension_instances :=
      s.time_dimension_instances.filter (fun t => t.spec.entity_links.head? ≠ some entity_link)
    entity_instances :=
      s.entity_instances.filter (fun e => e.spec.entity_links.head? ≠ some entity_link) }

/-- Modelled from the spec: `AddLinkToLinkableElements` prepends the join
entity as a new leading entity link on every linkable instance and
re-resolves the affected columns (spec sections 4.1 and 4.2). -/
def addLinkToLinkableElements (r : Resolver) (join_on_entity : String) (s : InstanceSet) :
    InstanceSet :=
  { s with
    dimension_instances := s.dimension_instances.map (fun d =>
      let spec := { d.spec with entity_links := join_on_entity :: d.spec.entity_links }
      { spec := spec, column_name := r.dimension spec })
    time_dimension_instances := s.time_dimension_instances.map (fun t =>
      let spec := { t.spec with entity_links := join_on_entity :: t.spec.entity_links }
      { spec := spec, column_name := r.timeDimension spec })
    entity_instances := s.entity_instances.map (fun e =>
      let spec := { e.spec with entity_links := join_on_entity :: e.spec.entity_links }
      { spec := spec, column_name := r.entity spec }) }

/-- Modelled from the spec: `ChangeMeasureAggregationState` remaps each
measure instance state through the given mapping (spec section 4.2); the
handlers in `dataflow_to_sql.py` pass total dictionaries, embedded here as
functions. -/
def changeMeasureAggregationState (mapping : AggregationState → AggregationState)
    (s : InstanceSet) : InstanceSet :=
  { s with
    measure_instances := s.measure_instances.map (fun m =>
      { m with aggregation_state := mapping m.aggregation_state }) }

/-- Modelled from the spec: `RemoveMeasures` (spec section 4.2). -/
def removeMeasures (s : InstanceSet) : InstanceSet :=
  { s with measure_instances := [] }

/-- Modelled from the spec: `RemoveMetrics` (spec section 4.2). -/
def removeMetrics (s : InstanceSet) : InstanceSet :=
  { s with metric_instances := [] }

/-- Modelled from the spec: `AddMetrics` appends metric instances
(spec section 4.2). -/
def addMetrics (metrics : List MetricInstance) (s : InstanceSet) : InstanceSet :=
  { s with metric_instances := s.metric_instances ++ metrics }

/-- Modelled from the spec: `AddGroupByMetric` appends a group-by-metric
instance (spec section 4.2). -/
def addGroupByMetric (g : GroupByMetricInstance) (s : InstanceSet) : InstanceSet :=
  { s with group_by_metric_instances := s.group_by_metric_instances ++ [g] }

/-- Modelled from the spec: `AddMetadata` appends metadata instances
(spec section 4.2). -/
def addMetadata (metadata : List MetadataInstance) (s : InstanceSet) : InstanceSet :=
  { s with metadata_instances := s.metadata_instances ++ metadata }

/-- Modelled from the spec: `ConvertToMetadata` replaces the whole
instance set with the given metadata instances (spec section 4.2, used by
`visit_min_max_node`). -/
def convertToMetadata (metadata : List MetadataInstance) (_s : InstanceSet) : InstanceSet :=
  { metadata_instances := metadata }

/-- Metric input measure specs attached to an `AggregateMeasuresNode`
(`node.metric_input_measure_specs`): the measure name, an optional output
alias and an optional fill-nulls-with value (spec sections 4.1 and 4.2). -/
structure MetricInputMeasureSpec where
  measure_name : String
  alias_name : Option String
  fill_nulls_with : Option Int
deriving DecidableEq, Repr

/-- First metric-input-measure spec matching a measure name. -/
def findInputSpec (specs : List MetricInputMeasureSpec) (name : String) :
    Option MetricInputMeasureSpec :=
  specs.find? (fun s => s.measure_name = name)

/-- Modelled from the spec: `UpdateMeasureFillNullsWith` copies the
fill-nulls-with value from a matching metric-input-measure spec onto the
measure instance (spec section 4.2). -/
def updateMeasureFillNullsWith (specs : List MetricInputMeasureSpec) (s : InstanceSet) :
    InstanceSet :=
  { s with
    measure_instances := s.measure_instances.map (fun m =>
      match findInputSpec specs m.spec.element_name with
      | some i => { m with fill_nulls_with := i.fill_nulls_with }
      | none => m) }

/-- Modelled from the spec: `AliasAggregatedMeasures` renames measure
instances per the aliases of the metric-input-measure specs
(spec section 4.2). -/
def aliasAggregatedMeasures (specs : List MetricInputMeasureSpec) (s : InstanceSet) :
    InstanceSet :=
  { s with
    measure_instances := s.measure_instances.map (fun m =>
      match findInputSpec specs m.spec.element_name with
      | some i =>
        match i.alias_name with
        | some a => { m with spec := { element_name := a } }
        | none => m
      | none => m) }

/-- SQL functions appearing in aggregate-function expressions
(`SqlFunction` in `sql_exprs.py`). -/
inductive SqlFunction where
  | SUM
  | AVERAGE
  | MIN
  | MAX
  | COUNT_DISTINCT
  | COUNT
  | COALESCE
deriving DecidableEq, Repr

/-- Comparison operators for `SqlComparisonExpression`. -/
inductive SqlComparison where
  | EQUALS
  | GREATER_THAN_OR_EQUALS
  | LESS_THAN_OR_EQUALS
deriving DecidableEq, Repr

/-- SQL expression trees, mirroring the `sql_exprs` node variants used by
the handlers under verification. -/
inductive SqlExpr where
  | columnRef (table_alias : String) (column_name : String)
  | stringLiteral (literal_value : String)
  | stringExpr (sql_expr : String)
  | between (column_arg : SqlExpr) (start_expr : SqlExpr) (end_expr : SqlExpr)
  | dateTrunc (time_granularity : Nat) (arg : SqlExpr)
  | extractDatePart (date_part : Nat) (arg : SqlExpr)
  | aggFunction (sql_function : SqlFunction) (sql_function_args : List SqlExpr)
  | castAsBigint (arg : SqlExpr)
  | percentileExpr (arg : SqlExpr)
  | comparisonExpr (left_expr : SqlExpr) (comparison : SqlComparison) (right_expr : SqlExpr)
  | logicalOr (left : SqlExpr) (right : SqlExpr)
  | ratioComputation (numerator : SqlExpr) (denominator : SqlExpr)
  | generateUuid

/-- Select column: an expression plus its output alias (`SqlSelectColumn`). -/
structure SqlSelectColumn where
  expr : SqlExpr
  column_alias : String

/-- Modelled from the spec: a select-column set keeps one column list per
instance category (`SelectColumnSet` in `select_column_gen.py`). -/
structure SelectColumnSet where
  measure_columns : List SqlSelectColumn := []
  dimension_columns : List SqlSelectColumn := []
  time_dimension_columns : List SqlSelectColumn := []
  entity_columns : List SqlSelectColumn := []
  metric_columns : List SqlSelectColumn := []
  group_by_metric_columns : List SqlSelectColumn := []
  metadata_columns : List SqlSelectColumn := []

/-- Modelled from the spec: `SelectColumnSet.as_tuple` concatenates the
category lists in the declared tuple order of the instance categories
(spec sections 3 and 5). -/
def SelectColumnSet.asTuple (s : SelectColumnSet) : List SqlSelectColumn :=
  s.measure_columns ++ s.dimension_columns ++ s.time_dimension_columns ++
    s.entity_columns ++ s.metric_columns ++ s.group_by_metric_columns ++ s.metadata_columns

/-- Modelled from the spec: `SelectColumnSet.without_measure_columns`
drops the measure columns, keeping every other category
(used for the GROUP BY of `visit_aggregate_measures_node`). -/
def SelectColumnSet.withoutMeasureColumns (s : SelectColumnSet) : SelectColumnSet :=
  { s with measure_columns := [] }

/-- Merge of two select-column sets, category-wise concatenation. -/
def SelectColumnSet.merge (a b : SelectColumnSet) : SelectColumnSet :=
  { measure_columns := a.measure_columns ++ b.measure_columns
    dimension_columns := a.dimension_columns ++ b.dimension_columns
    time_dimension_columns := a.time_dimension_columns ++ b.time_dimension_columns
    entity_columns := a.entity_columns ++ b.entity_columns
    metric_columns := a.metric_columns ++ b.metric_columns
    group_by_metric_columns := a.group_by_metric_columns ++ b.group_by_metric_columns
    metadata_columns := a.metadata_columns ++ b.metadata_columns }

/-- Association-list insert with the update-in-place semantics of an
`OrderedDict` assignment: an existing key keeps its position and gets the
new value, a new key is appended. -/
def assocInsert (k v : String) : List (String × String) → List (String × String)
  | [] => [(k, v)]
  | (k', v') :: rest => if k' = k then (k, v) :: rest else (k', v') :: assocInsert k v rest

/-- Association-list lookup, first match wins. -/
def assocLookup (k : String) (l : List (String × String)) : Option String :=
  (l.find? (fun p => p.1 = k)).map (·.2)

/-- Modelled from the spec: `CreateSelectColumnsForInstances` yields one
select column per instance, aliased by the resolver column name and
referencing `table_alias.column`, where the referenced column is rewritten
through the optional output-to-input column mapping (spec section 4.2 and
`visit_metric_time_dimension_transform_node`). -/
def createSelectColumnsForInstances (table_alias : String) (r : Resolver)
    (output_to_input_column_mapping : List (String × String)) (s : InstanceSet) :
    SelectColumnSet :=
  let mk : String → SqlSelectColumn := fun output_col =>
    let input_col := (assocLookup output_col output_to_input_column_mapping).getD output_col
    { expr := .columnRef table_alias input_col, column_alias := output_col }
  { measure_columns := s.measure_instances.map (fun m => mk (r.measure m.spec))
    dimension_columns := s.dimension_instances.map (fun d => mk (r.dimension d.spec))
    time_dimension_columns := s.time_dimension_instances.map (fun t => mk (r.timeDimension t.spec))
    entity_columns := s.entity_instances.map (fun e => mk (r.entity e.spec))
    metric_columns := s.metric_instances.map (fun m => mk (r.metric m.spec))
    group_by_metric_columns := s.group_by_metric_instances.map (fun g => mk (r.groupByMetric g.spec))
    metadata_columns := s.metadata_instances.map (fun m => mk (r.metadata m.spec)) }

/-- Modelled from the spec: `SqlFunctionExpression.build_expression_from_aggregation_type`
wraps a column expression in the SQL aggregation function for the given
aggregation type; SUM_BOOLEAN becomes SUM over a cast (spec section 4.1). -/
def buildExpressionFromAggregationType (aggregation_type : AggregationType)
    (sql_column_expression : SqlExpr) : SqlExpr :=
  match aggregation_type with
  | .SUM => .aggFunction .SUM [sql_column_expression]
  | .AVG => .aggFunction .AVERAGE [sql_column_expression]
  | .MIN => .aggFunction .MIN [sql_column_expression]
  | .MAX => .aggFunction .MAX [sql_column_expression]
  | .COUNT_DISTINCT => .aggFunction .COUNT_DISTINCT [sql_column_expression]
  | .SUM_BOOLEAN => .aggFunction .SUM [.castAsBigint sql_column_expression]
  | .PERCENTILE => .percentileExpr sql_column_expression
  | .MEDIAN => .percentileExpr sql_column_expression
  | .COUNT => .aggFunction .COUNT [sql_column_expression]

/-- Modelled from the spec: `CreateSelectColumnsWithMeasuresAggregated`
is `CreateSelectColumnsForInstances` except that each measure column is
wrapped in that measure aggregation function and renamed per the
metric-input-measure alias when one is set (spec sections 4.1 and 4.2). -/
def createSelectColumnsWithMeasuresAggregated (table_alias : String) (r : Resolver)
    (aggTypeOfMeasure : String → AggregationType)
    (metric_input_measure_specs : List MetricInputMeasureSpec) (s : InstanceSet) :
    SelectColumnSet :=
  let plain := createSelectColumnsForInstances table_alias r [] s
  { plain with
    measure_columns := s.measure_instances.map (fun m =>
      let aggregated_expr := buildExpressionFromAggregationType
        (aggTypeOfMeasure m.spec.element_name) (.columnRef table_alias (r.measure m.spec))
      let output_alias :=
        match (findInputSpec metric_input_measure_specs m.spec.element_name).bind (·.alias_name) with
        | some a => r.measure { element_name := a }
        | none => r.measure m.spec
      { expr := aggregated_expr, column_alias := output_alias }) }

/-- Time-range constraint with ISO-formatted start and end timestamps
(`TimeRangeConstraint`); the timestamp strings are opaque here. -/
structure TimeRangeConstraint where
  start_time : String
  end_time : String
deriving DecidableEq, Repr

/-- Translation of `_make_time_range_comparison_expr`
(`dataflow_to_sql.py` lines 144-162): `column BETWEEN start AND end`. -/
def makeTimeRangeComparisonExpr (table_alias : String) (column_alias : String)
    (time_range_constraint : TimeRangeConstraint) : SqlExpr :=
  .between (.columnRef table_alias column_alias)
    (.stringLiteral time_range_constraint.start_time)
    (.stringLiteral time_range_constraint.end_time)

/-- Aggregation-state mapping passed by `visit_join_on_entities_node`
(`dataflow_to_sql.py` lines 417-423): previously aggregated measures are
demoted to partially aggregated. -/
def joinOnEntitiesStateMapping : AggregationState → AggregationState
  | .NON_AGGREGATED => .NON_AGGREGATED
  | .COMPLETE => .PARTIAL
  | .PARTIAL => .PARTIAL

/-- Aggregation-state mapping passed by `visit_aggregate_measures_node`
(`dataflow_to_sql.py` lines 461-467): every state becomes complete. -/
def aggregateMeasuresStateMapping : AggregationState → AggregationState
  | .NON_AGGREGATED => .COMPLETE
  | .COMPLETE => .COMPLETE
  | .PARTIAL => .COMPLETE

/-- Instance-set contribution of one right-side data set in
`visit_join_on_entities_node` (`dataflow_to_sql.py` lines 386-407): when a
join entity is present, first drop the linkable instances already led by
that entity, then prepend the entity link to the remaining linkable
instances; without a join entity the right data set passes unchanged. -/
def joinRightContribution (r : Resolver) (join_on_entity : Option String)
    (right_instance_set : InstanceSet) : InstanceSet :=
  match join_on_entity with
  | some e => addLinkToLinkableElements r e
      (filterLinkableInstancesWithLeadingLink e right_instance_set)
  | none => right_instance_set

/-- Instance-set portion of `visit_join_on_entities_node`
(`dataflow_to_sql.py` lines 353-441): the left (FROM) data set is filtered
by its own spec set, its measures are demoted through
`joinOnEntitiesStateMapping`, and the output merges the left set with the
per-target right contributions in insertion order of the table aliases. -/
def visit_join_on_entities (r : Resolver) (from_instance_set : InstanceSet)
    (join_targets : List (Option String × InstanceSet)) : InstanceSet :=
  let rights := join_targets.map (fun t => joinRightContribution r t.1 t.2)
  let from_out := filterElements from_instance_set.specSet from_instance_set
  let from_out := changeMeasureAggregationState joinOnEntitiesStateMapping from_out
  mergeInstanceSets (from_out :: rights)

/-- Output bundle of `visit_aggregate_measures_node`: the output instance
set, the generated select-column set, and the select and GROUP BY column
lists of the emitted SELECT statement. -/
structure AggregateMeasuresOutput where
  instance_set : InstanceSet
  select_column_set : SelectColumnSet
  select_columns : List SqlSelectColumn
  group_bys : List SqlSelectColumn

/-- Translation of `visit_aggregate_measures_node`
(`dataflow_to_sql.py` lines 443-516): promote all measure states through
`aggregateMeasuresStateMapping`, re-resolve columns, copy fill-nulls-with
values, build aggregated select columns, alias measures when any
metric-input-measure spec carries an alias, and GROUP BY the select
columns that do not correspond to a measure instance. -/
def visit_aggregate_measures (r : Resolver) (aggTypeOfMeasure : String → AggregationType)
    (metric_input_measure_specs : List MetricInputMeasureSpec)
    (from_data_set_alias : String) (from_instance_set : InstanceSet) :
    AggregateMeasuresOutput :=
  let aggregated_instance_set :=
    changeMeasureAggregationState aggregateMeasuresStateMapping from_instance_set
  let aggregated_instance_set := changeAssociatedColumns r aggregated_instance_set
  let aggregated_instance_set :=
    updateMeasureFillNullsWith metric_input_measure_specs aggregated_instance_set
  let select_column_set := createSelectColumnsWithMeasuresAggregated from_data_set_alias r
    aggTypeOfMeasure metric_input_measure_specs aggregated_instance_set
  let aggregated_instance_set :=
    if metric_input_measure_specs.any (fun s => s.alias_name.isSome) then
      changeAssociatedColumns r
        (aliasAggregatedMeasures metric_input_measure_specs aggregated_instance_set)
    else aggregated_instance_set
  { instance_set := aggregated_instance_set
    select_column_set := select_column_set
    select_columns := select_column_set.asTuple
    group_bys := select_column_set.withoutMeasureColumns.asTuple }

/-- Metric types (`MetricType`), a closed enumeration. -/
inductive MetricTypeModel where
  | simpleMetric
  | ratioMetric
  | cumulativeMetric
  | derivedMetric
  | conversionMetric
deriving DecidableEq, Repr

/-- Conversion calculation types (`ConversionCalculationType`). -/
inductive ConversionCalculationType where
  | CONVERSION_RATE
  | CONVERSIONS
deriving DecidableEq, Repr

/-- Metric input measure (`MetricInputMeasure`): the post-aggregation
measure reference name and the optional fill-nulls-with value. -/
structure MetricInputMeasure where
  post_aggregation_name : String
  fill_nulls_with : Option Int
deriving DecidableEq, Repr

/-- Conversion type parameters of a conversion metric. -/
structure ConversionTypeParams where
  base_measure : MetricInputMeasure
  conversion_measure : MetricInputMeasure
  calculation : ConversionCalculationType
deriving DecidableEq, Repr

/-- Metric definition as consulted by `visit_compute_metrics_node`:
name, type, input measures, the post-aggregation references of the
numerator and denominator for ratio metrics, the raw expression for
derived metrics, and the conversion parameters for conversion metrics. -/
structure Metric where
  name : String
  metric_type : MetricTypeModel
  input_measures : List MetricInputMeasure
  numerator : Option String
  denominator : Option String
  type_params_expr : Option String
  conversion_type_params : Option ConversionTypeParams
deriving DecidableEq, Repr

/-- Translation of `__make_col_reference_or_coalesce_expr`
(`dataflow_to_sql.py` lines 696-709): a plain column reference, wrapped in
COALESCE with the fill-nulls-with value only when an input measure with a
set fill-nulls-with is supplied. -/
def makeColReferenceOrCoalesceExpr (column_name : String)
    (input_measure : Option MetricInputMeasure) (from_data_set_alias : String) : SqlExpr :=
  let metric_expr : SqlExpr := .columnRef from_data_set_alias column_name
  match input_measure with
  | some im =>
    match im.fill_nulls_with with
    | some v => .aggFunction .COALESCE [metric_expr, .stringExpr (toString v)]
    | none => metric_expr
  | none => metric_expr

/-- Metric-type dispatch of `visit_compute_metrics_node`
(`dataflow_to_sql.py` lines 550-646), producing the select expression for
one metric; assertion failures become errors. -/
def computeMetricExpr (r : Resolver) (from_data_set_alias : String) (metric : Metric) :
    Except String SqlExpr :=
  match metric.metric_type with
  | .ratioMetric =>
    match metric.numerator, metric.denominator with
    | some numerator, some denominator =>
      .ok (.ratioComputation
        (.columnRef from_data_set_alias (r.metric { element_name := numerator }))
        (.columnRef from_data_set_alias (r.metric { element_name := denominator })))
    | _, _ => .error "Missing numerator or denominator for ratio metric"
  | .simpleMetric =>
    match metric.input_measures with
    | [] => .ok (makeColReferenceOrCoalesceExpr metric.name none from_data_set_alias)
    | [input_measure] =>
      .ok (makeColReferenceOrCoalesceExpr
        (r.measure { element_name := input_measure.post_aggregation_name })
        (some input_measure) from_data_set_alias)
    | _ => .error "Simple metrics should always source from exactly 1 measure."
  | .cumulativeMetric =>
    match metric.input_measures with
    | [input_measure] =>
      .ok (makeColReferenceOrCoalesceExpr
        (r.measure { element_name := input_measure.post_aggregation_name })
        (some input_measure) from_data_set_alias)
    | _ => .error "Cumulative metrics should always source from exactly 1 measure."
  | .derivedMetric =>
    match metric.type_params_expr with
    | some e => .ok (.stringExpr e)
    | none => .error "Derived metrics are required to have an expr in their definition."
  | .conversionMetric =>
    match metric.conversion_type_params with
    | some params =>
      let conversion_column_reference : SqlExpr := .columnRef from_data_set_alias
        (r.measure { element_name := params.conversion_measure.post_aggregation_name })
      let base_column_reference : SqlExpr := .columnRef from_data_set_alias
        (r.measure { element_name := params.base_measure.post_aggregation_name })
      match params.calculation with
      | .CONVERSION_RATE =>
        .ok (.ratioComputation conversion_column_reference base_column_reference)
      | .CONVERSIONS => .ok conversion_column_reference
    | none => .error "A conversion metric should have conversion_type_params defined."

/-- Metric-time time-dimension instances of a data set: the time-dimension
instances whose element name is the reserved metric-time name. Modelled
from the spec: the property `metric_time_dimension_instances` of
`SqlDataSet` is not under `src/` (spec sections 3 and 4.1). -/
def InstanceSet.metricTimeDimensionInstances (s : InstanceSet) : List TimeDimensionInstance :=
  s.time_dimension_instances.filter (fun t => t.spec.element_name = METRIC_TIME_ELEMENT_NAME)

/-- First element of the list attaining the minimal time granularity.
Python sorts stably by `spec.time_granularity.to_int()` and takes index 0,
which is exactly the first element attaining the minimum; this fold
computes the same element without sorting. -/
def firstMinByGranularity (l : List TimeDimensionInstance) : Option TimeDimensionInstance :=
  match l with
  | [] => none
  | a :: rest => some (rest.foldl
      (fun acc x => if x.spec.time_granularity < acc.spec.time_granularity then x else acc) a)

/-- Output bundle of `visit_constrain_time_range_node`. -/
structure ConstrainTimeRangeOutput where
  instance_set : InstanceSet
  select_columns : List SqlSelectColumn
  where_clause : SqlExpr

/-- Translation of `visit_constrain_time_range_node`
(`dataflow_to_sql.py` lines 939-986): pick the metric-time instance with
the smallest granularity, emit a BETWEEN comparison on its associated
column as the WHERE clause, and abort when the parent has no metric-time
time-dimension instance. -/
def visit_constrain_time_range (r : Resolver) (time_range_constraint : TimeRangeConstraint)
    (from_data_set_alias : String) (from_instance_set : InstanceSet) :
    Except String ConstrainTimeRangeOutput :=
  match firstMinByGranularity from_instance_set.metricTimeDimensionInstances with
  | none => .error "No metric time dimensions found in the input data set for this node"
  | some time_dimension_instance_for_metric_time =>
    let constrain_metric_time_column_condition := makeTimeRangeComparisonExpr
      from_data_set_alias time_dimension_instance_for_metric_time.column_name
      time_range_constraint
    let output_instance_set := changeAssociatedColumns r from_instance_set
    .ok { instance_set := output_instance_set
          select_columns :=
            (createSelectColumnsForInstances from_data_set_alias r [] output_instance_set).asTuple
          where_clause := constrain_metric_time_column_condition }

/-- Modelled from the spec: `DataSet.metric_time_dimension_spec` builds
the reserved metric-time time-dimension spec at the given granularity and
date part, with no entity links (spec section 4.1 and glossary). -/
def metricTimeDimensionSpec (time_granularity : Nat) (date_part : Option Nat) :
    TimeDimensionSpec :=
  { element_name := METRIC_TIME_ELEMENT_NAME
    entity_links := []
    time_granularity := time_granularity
    date_part := date_part
    aggregation_state := none }

/-- Matching predicate of `visit_metric_time_dimension_transform_node` for
parent time-dimension instances (`dataflow_to_sql.py` lines 1017-1023):
no entity links and a dimension reference equal to the aggregation time
dimension of the node. -/
def matchesAggregationTimeDimension (aggregation_time_dimension_reference : String)
    (t : TimeDimensionInstance) : Prop :=
  t.spec.entity_links = [] ∧ t.spec.element_name = aggregation_time_dimension_reference

instance (ref : String) (t : TimeDimensionInstance) :
    Decidable (matchesAggregationTimeDimension ref t) :=
  inferInstanceAs (Decidable (_ ∧ _))

/-- Mirrored metric-time instance for one matching parent time-dimension
instance (`dataflow_to_sql.py` lines 1030-1044): same granularity and date
part, reserved metric-time element name, column from the resolver. -/
def mirroredMetricTimeInstance (r : Resolver) (t : TimeDimensionInstance) :
    TimeDimensionInstance :=
  let metric_time_dimension_spec :=
    metricTimeDimensionSpec t.spec.time_granularity t.spec.date_part
  { spec := metric_time_dimension_spec
    column_name := r.timeDimension metric_time_dimension_spec }

/-- Output bundle of `visit_metric_time_dimension_transform_node`. -/
structure MetricTimeTransformOutput where
  instance_set : InstanceSet
  output_column_to_input_column : List (String × String)
  select_columns : List SqlSelectColumn

/-- Translation of `visit_metric_time_dimension_transform_node`
(`dataflow_to_sql.py` lines 988-1075): keep only the measures whose
aggregation time dimension matches the node, mirror each matching parent
time-dimension instance as a metric-time instance, record the
output-to-input column mapping, and build the output instance set; the
source `InstanceSet` construction omits the metadata and group-by-metric
categories, which therefore default to empty. -/
def visit_metric_time_dimension_transform (r : Resolver)
    (aggTimeDimensionForMeasure : String → String)
    (aggregation_time_dimension_reference : String)
    (from_data_set_alias : String) (input_instance_set : InstanceSet) :
    MetricTimeTransformOutput :=
  let output_measure_instances := input_instance_set.measure_instances.filter
    (fun m => aggTimeDimensionForMeasure m.spec.element_name =
      aggregation_time_dimension_reference)
  let matching_time_dimension_instances :=
    input_instance_set.time_dimension_instances.filter
      (matchesAggregationTimeDimension aggregation_time_dimension_reference)
  let output_time_dimension_instances :=
    input_instance_set.time_dimension_instances ++
      matching_time_dimension_instances.map (mirroredMetricTimeInstance r)
  let output_column_to_input_column := matching_time_dimension_instances.foldl
    (fun acc t => assocInsert (mirroredMetricTimeInstance r t).column_name t.column_name acc)
    []
  let output_instance_set : InstanceSet :=
    { measure_instances := output_measure_instances
      dimension_instances := input_instance_set.dimension_instances
      time_dimension_instances := output_time_dimension_instances
      entity_instances := input_instance_set.entity_instances
      metric_instances := input_instance_set.metric_instances }
  let output_instance_set := changeAssociatedColumns r output_instance_set
  { instance_set := output_instance_set
    output_column_to_input_column := output_column_to_input_column
    select_columns := (createSelectColumnsForInstances from_data_set_alias r
      output_column_to_input_column output_instance_set).asTuple }

/-- Modelled from the spec: the canonical qualified name of a
time-dimension spec, its entity links and element name joined by double
underscores (spec section 3, "carry a canonical qualified name"). -/
def TimeDimensionSpec.qualifiedName (s : TimeDimensionSpec) : String :=
  String.intercalate "__" (s.entity_links ++ [s.element_name])

/-- Loop of `visit_join_to_time_spine_node` over the time-dimension
instances to select from the time spine (`dataflow_to_sql.py` lines
1299-1352): abort when an instance has a strictly smaller granularity than
the time spine column, otherwise apply DATE_TRUNC when the granularity
differs, accumulate the offset-to-grain WHERE filter, apply EXTRACT for
date parts, and emit one select column and instance per entry. -/
def joinToTimeSpineColumnLoop (r : Resolver) (original_spec : TimeDimensionSpec)
    (time_spine_column_select_expr : SqlExpr) (need_where_filter : Bool)
    (requested_agg_time_dimension_specs : List TimeDimensionSpec)
    (instances : List TimeDimensionInstance)
    (acc_columns : List SqlSelectColumn) (acc_instances : List TimeDimensionInstance)
    (acc_where : Option SqlExpr) :
    Except String (List SqlSelectColumn × List TimeDimensionInstance × Option SqlExpr) :=
  match instances with
  | [] => .ok (acc_columns, acc_instances, acc_where)
  | time_dimension_instance :: rest =>
    let time_dimension_spec := time_dimension_instance.spec
    if time_dimension_spec.time_granularity < original_spec.time_granularity then
      .error "Can not join to time spine for a time dimension with a smaller granularity than that of the time spine column."
    else
      let select_expr : SqlExpr :=
        if time_dimension_spec.time_granularity = original_spec.time_granularity then
          time_spine_column_select_expr
        else
          .dateTrunc time_dimension_spec.time_granularity time_spine_column_select_expr
      let acc_where :=
        if need_where_filter ∧ time_dimension_spec ∈ requested_agg_time_dimension_specs then
          let new_where_filter :=
            SqlExpr.comparisonExpr select_expr .EQUALS time_spine_column_select_expr
          some (match acc_where with
            | some w => SqlExpr.logicalOr w new_where_filter
            | none => new_where_filter)
        else acc_where
      let select_expr :=
        match time_dimension_spec.date_part with
        | some dp => SqlExpr.extractDatePart dp select_expr
        | none => select_expr
      let time_dim_spec : TimeDimensionSpec :=
        { element_name := original_spec.element_name
          entity_links := original_spec.entity_links
          time_granularity := time_dimension_spec.time_granularity
          date_part := time_dimension_spec.date_part
          aggregation_state := original_spec.aggregation_state }
      let time_spine_dim_instance : TimeDimensionInstance :=
        { spec := time_dim_spec, column_name := r.timeDimension time_dim_spec }
      joinToTimeSpineColumnLoop r original_spec time_spine_column_select_expr
        need_where_filter requested_agg_time_dimension_specs rest
        (acc_columns ++ [{ expr := select_expr,
                           column_alias := time_spine_dim_instance.column_name }])
        (acc_instances ++ [time_spine_dim_instance]) acc_where

/-- Output bundle of `visit_join_to_time_spine_node`. -/
structure JoinToTimeSpineOutput where
  instance_set : InstanceSet
  time_spine_select_columns : List SqlSelectColumn
  where_filter : Option SqlExpr

/-- Agg-time element name and entity links chosen by
`visit_join_to_time_spine_node` (`dataflow_to_sql.py` lines 1196-1202):
the first requested spec when a custom agg time dimension is used (a
missing one is an index error), the reserved metric-time name with no
entity links otherwise. -/
def joinToTimeSpineAggTimeTarget (use_custom_agg_time_dimension : Bool)
    (requested_agg_time_dimension_specs : List TimeDimensionSpec) :
    Except String (String × List String) :=
  if use_custom_agg_time_dimension then
    match requested_agg_time_dimension_specs with
    | [] => .error "No requested agg time dimension specs given"
    | agg_time_dimension :: _ =>
      .ok (agg_time_dimension.element_name, agg_time_dimension.entity_links)
  else
    .ok (METRIC_TIME_ELEMENT_NAME, [])

/-- Core of `visit_join_to_time_spine_node`
(`dataflow_to_sql.py` lines 1204-1365), instance-set and time-spine-column
portion, after the agg-time element name and entity links are chosen: pick
the matching parent instance with the smallest granularity (ignoring date
parts), split the parent time dimensions between the spine and the parent,
and run the spine column loop.  The time spine data set carries exactly
the chosen instance, so the spine column granularity is that instance's
granularity. -/
def visit_join_to_time_spine_core (r : Resolver) (agg_time_element_name : String)
    (agg_time_entity_links : List String)
    (requested_agg_time_dimension_specs : List TimeDimensionSpec)
    (offset_to_grain : Bool) (time_spine_alias : String)
    (parent_instance_set : InstanceSet) : Except String JoinToTimeSpineOutput :=
    let agg_time_dimension_instances := parent_instance_set.time_dimension_instances.filter
      (fun i => i.spec.date_part = none ∧ i.spec.element_name = agg_time_element_name ∧
        i.spec.entity_links = agg_time_entity_links)
    match firstMinByGranularity agg_time_dimension_instances with
    | none => .error "Could not find requested agg_time_dimension in parent data set."
    | some agg_time_dimension_instance_for_join =>
      let original_time_spine_dim_instance := agg_time_dimension_instance_for_join
      let time_dimensions_to_select_from_time_spine :=
        parent_instance_set.time_dimension_instances.filter
          (fun t => t.spec.element_name = agg_time_element_name ∧
            t.spec.entity_links = agg_time_entity_links)
      let parent_portion : InstanceSet :=
        { parent_instance_set with
          time_dimension_instances := parent_instance_set.time_dimension_instances.filter
            (fun t => ¬(t.spec.element_name = agg_time_element_name ∧
              t.spec.entity_links = agg_time_entity_links)) }
      let time_spine_column_select_expr : SqlExpr :=
        .columnRef time_spine_alias original_time_spine_dim_instance.spec.qualifiedName
      let need_where_filter := offset_to_grain &&
        decide (original_time_spine_dim_instance.spec ∉ requested_agg_time_dimension_specs)
      match joinToTimeSpineColumnLoop r original_time_spine_dim_instance.spec
        time_spine_column_select_expr need_where_filter
        requested_agg_time_dimension_specs time_dimensions_to_select_from_time_spine
        [] [] none with
      | .error e => .error e
      | .ok (time_spine_select_columns, time_spine_dim_instances, where_filter) =>
        .ok { instance_set := mergeInstanceSets
                [{ time_dimension_instances := time_spine_dim_instances }, parent_portion]
              time_spine_select_columns := time_spine_select_columns
              where_filter := where_filter }

/-- Translation of `visit_join_to_time_spine_node`
(`dataflow_to_sql.py` lines 1192-1365): choose the agg-time target, then
run the core. -/
def visit_join_to_time_spine (r : Resolver) (use_custom_agg_time_dimension : Bool)
    (requested_agg_time_dimension_specs : List TimeDimensionSpec)
    (offset_to_grain : Bool) (time_spine_alias : String)
    (parent_instance_set : InstanceSet) : Except String JoinToTimeSpineOutput :=
  match joinToTimeSpineAggTimeTarget use_custom_agg_time_dimension
      requested_agg_time_dimension_specs with
  | .error e => .error e
  | .ok (agg_time_element_name, agg_time_entity_links) =>
    visit_join_to_time_spine_core r agg_time_element_name agg_time_entity_links
      requested_agg_time_dimension_specs offset_to_grain time_spine_alias
      parent_instance_set

/-- Modelled from the spec: the SQL engine kinds, a closed enumeration
whose only observable effect in the core is the
use-column-alias-in-GROUP-BY flag (spec section 6). -/
inductive SqlEngine where
  | BIGQUERY
  | DUCKDB
  | REDSHIFT
  | POSTGRES
  | SNOWFLAKE
  | DATABRICKS
  | TRINO
deriving DecidableEq, Repr

/-- Optimization levels handed to the optimizer collaborator
(`SqlQueryOptimizationLevel`). -/
inductive SqlQueryOptimizationLevel where
  | O0
  | O1
  | O2
  | O3
  | O4
  | O5
deriving DecidableEq, Repr

/-- Engine flag computed by `convert_to_sql_query_plan`
(`dataflow_to_sql.py` line 202): true exactly for the BigQuery engine. -/
def useColumnAliasInGroupBy (sql_engine_type : SqlEngine) : Bool :=
  decide (sql_engine_type = SqlEngine.BIGQUERY)

/-- Result of `convert_to_sql_query_plan`: the instance set of the
compiled data set and the optimized render node, with the plan id
(`ConvertToSqlPlanResult` and `SqlQueryPlan`). -/
structure ConvertToSqlPlanResultModel (σ : Type) where
  instance_set : InstanceSet
  render_node : σ
  plan_id : Option String
deriving DecidableEq, Repr

/-- Translation of `convert_to_sql_query_plan`
(`dataflow_to_sql.py` lines 190-217): the engine kind is read only to
compute the use-column-alias-in-GROUP-BY flag, which selects the optimizer
list together with the optimization level; the optimizers then fold over
the SQL node of the visited data set.  The visited data set and the
optimizer table are parameters, since the visitor and the optimizer
pipeline are external to this function. -/
def convert_to_sql_query_plan {σ : Type}
    (optimizersForLevel : SqlQueryOptimizationLevel → Bool → List (σ → σ))
    (data_set : InstanceSet × σ) (sql_engine_type : SqlEngine)
    (optimization_level : SqlQueryOptimizationLevel)
    (sql_query_plan_id : Option String) : ConvertToSqlPlanResultModel σ :=
  let use_column_alias_in_group_by := useColumnAliasInGroupBy sql_engine_type
  let sql_node := (optimizersForLevel optimization_level use_column_alias_in_group_by).foldl
    (fun n optimizer => optimizer n) data_set.2
  { instance_set := data_set.1
    render_node := sql_node
    plan_id := sql_query_plan_id }

/- Dataflow plan nodes, the closed set of variants handled by
`DataflowToSqlQueryPlanConverter`; each constructor carries the node data
consulted by its handler at instance-set granularity.  Join targets and
combine parents are separate list-like types so that the compile functions
below are mutually structurally recursive. -/
mutual
inductive DataflowNode where
  | readSource (data_set : InstanceSet)
  | joinOverTimeRange (parent : DataflowNode) (time_dimension_spec_for_join : TimeDimensionSpec)
  | joinOnEntities (left_node : DataflowNode) (join_targets : JoinTargets)
  | aggregateMeasures (parent : DataflowNode)
      (metric_input_measure_specs : List MetricInputMeasureSpec)
  | computeMetrics (parent : DataflowNode) (metric_specs : List MetricSpec)
      (for_group_by_source_node : Bool)
  | orderByLimit (parent : DataflowNode)
  | filterElementsNode (parent : DataflowNode) (include_specs : SpecSet) (distinct : Bool)
  | whereConstraint (parent : DataflowNode)
  | combineAggregatedOutputs (parent_nodes : DataflowNodeList)
  | constrainTimeRange (parent : DataflowNode) (time_range_constraint : TimeRangeConstraint)
  | metricTimeDimensionTransform (parent : DataflowNode)
      (aggregation_time_dimension_reference : String)
  | semiAdditiveJoin (parent : DataflowNode)
  | joinToTimeSpine (parent : DataflowNode) (use_custom_agg_time_dimension : Bool)
      (requested_agg_time_dimension_specs : List TimeDimensionSpec) (offset_to_grain : Bool)
  | minMax (parent : DataflowNode) (parent_column_alias : String)
  | addGeneratedUuidColumn (parent : DataflowNode)
  | joinConversionEvents (base_node : DataflowNode) (conversion_node : DataflowNode)
      (conversion_measure_spec : MeasureSpec)
  | writeToResultDataTable (parent : DataflowNode)
  | writeToResultTable (parent : DataflowNode)
inductive JoinTargets where
  | nil
  | cons (join_on_entity : Option String) (join_node : DataflowNode) (rest : JoinTargets)
inductive DataflowNodeList where
  | nil
  | cons (node : DataflowNode) (rest : DataflowNodeList)
end

/-- Nodes of a join-target list, in order. -/
def JoinTargets.nodes : JoinTargets → List DataflowNode
  | .nil => []
  | .cons _ n rest => n :: rest.nodes

/-- Plain list of a node list. -/
def DataflowNodeList.toList : DataflowNodeList → List DataflowNode
  | .nil => []
  | .cons n rest => n :: rest.toList

/-- Direct parents of a dataflow node, in handler evaluation order. -/
def parentsOf : DataflowNode → List DataflowNode
  | .readSource _ => []
  | .joinOverTimeRange p _ => [p]
  | .joinOnEntities left targets => left :: targets.nodes
  | .aggregateMeasures p _ => [p]
  | .computeMetrics p _ _ => [p]
  | .orderByLimit p => [p]
  | .filterElementsNode p _ _ => [p]
  | .whereConstraint p => [p]
  | .combineAggregatedOutputs parents => parents.toList
  | .constrainTimeRange p _ => [p]
  | .metricTimeDimensionTransform p _ => [p]
  | .semiAdditiveJoin p => [p]
  | .joinToTimeSpine p _ _ _ => [p]
  | .minMax p _ => [p]
  | .addGeneratedUuidColumn p => [p]
  | .joinConversionEvents b c _ => [b, c]
  | .writeToResultDataTable p => [p]
  | .writeToResultTable p => [p]

/-- Whether a node is a join-on-entities node. -/
def DataflowNode.isJoinOnEntities : DataflowNode → Prop
  | .joinOnEntities _ _ => True
  | _ => False

instance (n : DataflowNode) : Decidable n.isJoinOnEntities := by
  cases n <;> simp [DataflowNode.isJoinOnEntities] <;> infer_instance

/-- Collaborators threaded through a compilation: the column-association
resolver and the semantic-manifest lookups (spec section 6). -/
structure CompileEnv where
  resolver : Resolver
  aggTimeDimensionForMeasure : String → String
  aggTypeOfMeasure : String → AggregationType
  getMetric : String → Option Metric

/-- Linkable-spec-set equality, as sets, between two instance sets;
mirrors the combine-node sanity check comparing
`instance_set.spec_set.linkable_specs` (`dataflow_to_sql.py` lines
876-880). -/
def sameLinkableSpecs (a b : InstanceSet) : Bool :=
  (a.dimension_instances.map (·.spec)).all (· ∈ b.dimension_instances.map (·.spec)) &&
  (b.dimension_instances.map (·.spec)).all (· ∈ a.dimension_instances.map (·.spec)) &&
  (a.time_dimension_instances.map (·.spec)).all (· ∈ b.time_dimension_instances.map (·.spec)) &&
  (b.time_dimension_instances.map (·.spec)).all (· ∈ a.time_dimension_instances.map (·.spec)) &&
  (a.entity_instances.map (·.spec)).all (· ∈ b.entity_instances.map (·.spec)) &&
  (b.entity_instances.map (·.spec)).all (· ∈ a.entity_instances.map (·.spec)) &&
  (a.group_by_metric_instances.map (·.spec)).all (· ∈ b.group_by_metric_instances.map (·.spec)) &&
  (b.group_by_metric_instances.map (·.spec)).all (· ∈ a.group_by_metric_instances.map (·.spec))

/-- Reserved metadata spec of the generated-UUID column
(`MetricFlowReservedKeywords.MF_INTERNAL_UUID`). -/
def genUuidSpec : MetadataSpec := { element_name := "mf_internal_uuid", agg_type := none }

/- Bottom-up compilation of a dataflow plan at instance-set granularity:
for each node, the output instance set its handler in
`dataflow_to_sql.py` attaches to the emitted SELECT, with handler
assertion failures carried as errors.  SQL-level data (select columns,
joins, WHERE clauses) is modelled separately by the per-handler functions
above; table aliases do not influence instance sets and are fixed
placeholder strings here. -/
mutual
def compile (env : CompileEnv) : DataflowNode → Except String InstanceSet
  | .readSource data_set => .ok data_set
  | .joinOverTimeRange parent time_dimension_spec_for_join =>
    match compile env parent with
    | .error e => .error e
    | .ok input_instance_set =>
      if input_instance_set.time_dimension_instances.any
          (fun i => i.spec = time_dimension_spec_for_join) then
        .ok (changeAssociatedColumns env.resolver input_instance_set)
      else
        .error "Specified metric time spec not found in parent data set."
  | .joinOnEntities left_node join_targets =>
    match compile env left_node with
    | .error e => .error e
    | .ok from_instance_set =>
      match compileTargets env join_targets with
      | .error e => .error e
      | .ok targets =>
        .ok (visit_join_on_entities env.resolver from_instance_set targets)
  | .aggregateMeasures parent metric_input_measure_specs =>
    match compile env parent with
    | .error e => .error e
    | .ok from_instance_set =>
      .ok (visit_aggregate_measures env.resolver env.aggTypeOfMeasure
        metric_input_measure_specs "from_source" from_instance_set).instance_set
  | .computeMetrics parent metric_specs for_group_by_source_node =>
    match compile env parent with
    | .error e => .error e
    | .ok from_instance_set =>
      let output_instance_set := removeMeasures from_instance_set
      let output_instance_set := changeAssociatedColumns env.resolver output_instance_set
      let output_instance_set := removeMetrics output_instance_set
      match metric_specs.mapM (fun metric_spec =>
        match env.getMetric metric_spec.element_name with
        | none => Except.error "Unable to find metric"
        | some metric => computeMetricExpr env.resolver "from_source" metric) with
      | .error e => .error e
      | .ok _ =>
        if for_group_by_source_node then
          match metric_specs, output_instance_set.entity_instances with
          | [metric_spec], [entity_instance] =>
            let entity_spec := entity_instance.spec
            let group_by_metric_spec : GroupByMetricSpec :=
              { element_name := metric_spec.element_name
                entity_links := []
                metric_subquery_entity_links :=
                  entity_spec.entity_links ++ [entity_spec.element_name] }
            .ok (addGroupByMetric
              { spec := group_by_metric_spec
                column_name := env.resolver.groupByMetric group_by_metric_spec }
              output_instance_set)
          | _, _ =>
            .error "Group by metrics currently only support exactly one metric grouped by exactly one entity."
        else
          .ok (addMetrics (metric_specs.map (fun metric_spec =>
            { spec := metric_spec, column_name := env.resolver.metric metric_spec }))
            output_instance_set)
  | .orderByLimit parent =>
    match compile env parent with
    | .error e => .error e
    | .ok s => .ok (changeAssociatedColumns env.resolver s)
  | .filterElementsNode parent include_specs _distinct =>
    match compile env parent with
    | .error e => .error e
    | .ok s => .ok (changeAssociatedColumns env.resolver (filterElements include_specs s))
  | .whereConstraint parent =>
    match compile env parent with
    | .error e => .error e
    | .ok s => .ok (changeAssociatedColumns env.resolver s)
  | .combineAggregatedOutputs parent_nodes =>
    match compileList env parent_nodes with
    | .error e => .error e
    | .ok parent_sets =>
      match parent_sets with
      | s0 :: s1 :: rest =>
        if (s1 :: rest).all (fun x => sameLinkableSpecs s0 x) then
          .ok (changeAssociatedColumns env.resolver (mergeInstanceSets (s0 :: s1 :: rest)))
        else
          .error "All parent nodes should have the same set of linkable instances since all values are coalesced."
      | _ => .error "Should not have a CombineAggregatedOutputsNode in the dataflow plan if there is only 1 parent."
  | .constrainTimeRange parent time_range_constraint =>
    match compile env parent with
    | .error e => .error e
    | .ok s =>
      match visit_constrain_time_range env.resolver time_range_constraint "from_source" s with
      | .error e => .error e
      | .ok out => .ok out.instance_set
  | .metricTimeDimensionTransform parent aggregation_time_dimension_reference =>
    match compile env parent with
    | .error e => .error e
    | .ok s =>
      .ok (visit_metric_time_dimension_transform env.resolver env.aggTimeDimensionForMeasure
        aggregation_time_dimension_reference "from_source" s).instance_set
  | .semiAdditiveJoin parent =>
    match compile env parent with
    | .error e => .error e
    | .ok s => .ok (changeAssociatedColumns env.resolver s)
  | .joinToTimeSpine parent use_custom requested offset_to_grain =>
    match compile env parent with
    | .error e => .error e
    | .ok s =>
      match visit_join_to_time_spine env.resolver use_custom requested offset_to_grain
        "time_spine" s with
      | .error e => .error e
      | .ok out => .ok out.instance_set
  | .minMax parent parent_column_alias =>
    match compile env parent with
    | .error e => .error e
    | .ok s =>
      let min_spec : MetadataSpec := { element_name := parent_column_alias, agg_type := some .MIN }
      let max_spec : MetadataSpec := { element_name := parent_column_alias, agg_type := some .MAX }
      .ok (convertToMetadata
        [{ spec := min_spec, column_name := env.resolver.metadata min_spec },
         { spec := max_spec, column_name := env.resolver.metadata max_spec }] s)
  | .addGeneratedUuidColumn parent =>
    match compile env parent with
    | .error e => .error e
    | .ok s =>
      .ok (addMetadata
        [{ spec := genUuidSpec, column_name := env.resolver.metadata genUuidSpec }] s)
  | .joinConversionEvents base_node conversion_node conversion_measure_spec =>
    match compile env base_node with
    | .error e => .error e
    | .ok base_set =>
      match compile env conversion_node with
      | .error e => .error e
      | .ok conversion_set =>
        let conversion_output := filterElements
          { measure_specs := [conversion_measure_spec] } conversion_set
        .ok (changeAssociatedColumns env.resolver
          (mergeInstanceSets [conversion_output, base_set]))
  | .writeToResultDataTable parent => compile env parent
  | .writeToResultTable parent =>
    match compile env parent with
    | .error e => .error e
    | .ok s => .ok s

def compileTargets (env : CompileEnv) :
    JoinTargets → Except String (List (Option String × InstanceSet))
  | .nil => .ok []
  | .cons join_on_entity join_node rest =>
    match compile env join_node with
    | .error e => .error e
    | .ok s =>
      match compileTargets env rest with
      | .error e => .error e
      | .ok others => .ok ((join_on_entity, s) :: others)

def compileList (env : CompileEnv) : DataflowNodeList → Except String (List InstanceSet)
  | .nil => .ok []
  | .cons node rest =>
    match compile env node with
    | .error e => .error e
    | .ok s =>
      match compileList env rest with
      | .error e => .error e
      | .ok others => .ok (s :: others)
end

/-- Measure instances of the compiled output of a node, empty when the
node fails to compile. -/
def compiledMeasures (env : CompileEnv) (n : DataflowNode) : List MeasureInstance :=
  match compile env n with
  | .ok s => s.measure_instances
  | .error _ => []

/-- All measure instances appearing in the compiled outputs of the direct
parents of a node, in parent order. -/
def allParentMeasures (env : CompileEnv) (n : DataflowNode) : List MeasureInstance :=
  (parentsOf n).flatMap (compiledMeasures env)

/-- Dunder-joined qualified name used by the sample resolver. -/
def qualifyName (entity_links : List String) (element_name : String) : String :=
  String.intercalate "__" (entity_links ++ [element_name])

/-- Concrete deterministic resolver used for witnesses: the canonical
qualified name with granularity and date-part suffixes for time
dimensions and aggregation-type suffixes for metadata (spec section
4.3). -/
def sampleResolver : Resolver :=
  { measure := fun s => s.element_name
    dimension := fun s => qualifyName s.entity_links s.element_name
    timeDimension := fun s =>
      qualifyName s.entity_links s.element_name ++ "__g" ++ toString s.time_granularity ++
        (match s.date_part with
         | some dp => "__dp" ++ toString dp
         | none => "")
    entity := fun s => qualifyName s.entity_links s.element_name
    metric := fun s => s.element_name
    groupByMetric := fun s => s.element_name
    metadata := fun s =>
      s.element_name ++
        (match s.agg_type with
         | some .MIN => "__min"
         | some .MAX => "__max"
         | _ => "") }

/-- Whether an SQL expression is a COALESCE application. -/
def SqlExpr.isCoalesce : SqlExpr → Bool
  | .aggFunction .COALESCE _ => true
  | _ => false

/-- C9: for any two engine kinds agreeing on the
use-column-alias-in-GROUP-BY flag, `convert_to_sql_query_plan` with the
same optimizer table, data set, optimization level and plan id returns
identical results, and the flag is true exactly for the BigQuery engine
kind. -/
theorem claim_C9_engine_kind_effect {σ : Type}
    (optimizersForLevel : SqlQueryOptimizationLevel → Bool → List (σ → σ))
    (data_set : InstanceSet × σ) (e1 e2 : SqlEngine)
    (optimization_level : SqlQueryOptimizationLevel) (plan_id : Option String)
    (h : useColumnAliasInGroupBy e1 = useColumnAliasInGroupBy e2) :
    convert_to_sql_query_plan optimizersForLevel data_set e1 optimization_level plan_id =
      convert_to_sql_query_plan optimizersForLevel data_set e2 optimization_level plan_id ∧
    ∀ e : SqlEngine, useColumnAliasInGroupBy e = true ↔ e = SqlEngine.BIGQUERY := by
  constructor
  · unfold convert_to_sql_query_plan
    rw [h]
  · intro e
    cases e <;> simp [useColumnAliasInGroupBy]

/-- Witness for C9 at two concrete non-BigQuery engines. -/
theorem claim_C9_engine_kind_effect_witness :
    useColumnAliasInGroupBy SqlEngine.POSTGRES = useColumnAliasInGroupBy SqlEngine.DUCKDB ∧
    (convert_to_sql_query_plan (σ := Nat) (fun _ _ => []) ({}, 0) SqlEngine.POSTGRES .O4 none =
        convert_to_sql_query_plan (fun _ _ => []) ({}, 0) SqlEngine.DUCKDB .O4 none ∧
      ∀ e : SqlEngine, useColumnAliasInGroupBy e = true ↔ e = SqlEngine.BIGQUERY) :=
  ⟨by decide,
    claim_C9_engine_kind_effect (fun _ _ => []) ({}, 0) SqlEngine.POSTGRES SqlEngine.DUCKDB
      .O4 none (by decide)⟩

/-- C10: for a simple metric with zero input measures the emitted
expression is a plain column reference to the metric's own name with no
COALESCE wrapping, and for any simple metric the produced expression is a
COALESCE exactly when the metric has exactly one input measure whose
fill-nulls-with is set. -/
theorem claim_C10_simple_metric_coalesce (r : Resolver) (from_data_set_alias : String)
    (metric : Metric) (hm : metric.metric_type = .simpleMetric) :
    (metric.input_measures = [] →
      computeMetricExpr r from_data_set_alias metric =
        .ok (.columnRef from_data_set_alias metric.name)) ∧
    (∀ e, computeMetricExpr r from_data_set_alias metric = .ok e →
      (e.isCoalesce = true ↔
        ∃ im, metric.input_measures = [im] ∧ im.fill_nulls_with ≠ none)) := by
  constructor
  · intro h0
    simp [computeMetricExpr, hm, h0, makeColReferenceOrCoalesceExpr]
  · intro e he
    rw [computeMetricExpr, hm] at he
    match h0 : metric.input_measures with
    | [] =>
      rw [h0] at he
      simp only [makeColReferenceOrCoalesceExpr, Except.ok.injEq] at he
      subst he
      simp [SqlExpr.isCoalesce]
    | [im] =>
      rw [h0] at he
      simp only [makeColReferenceOrCoalesceExpr, Except.ok.injEq] at he
      constructor
      · intro hc
        refine ⟨im, rfl, ?_⟩
        match hf : im.fill_nulls_with with
        | some v => simp
        | none =>
          rw [hf] at he
          subst he
          simp [SqlExpr.isCoalesce] at hc
      · rintro ⟨im', him', hfill⟩
        obtain rfl : im = im' := by simpa using him'
        match hf : im.fill_nulls_with with
        | none => exact absurd hf hfill
        | some v =>
          rw [hf] at he
          subst he
          simp [SqlExpr.isCoalesce]
    | im1 :: im2 :: rest =>
      rw [h0] at he
      simp at he

/-- Concrete simple metric with zero input measures. -/
def c10Metric : Metric :=
  { name := "zero_measure_metric"
    metric_type := .simpleMetric
    input_measures := []
    numerator := none
    denominator := none
    type_params_expr := none
    conversion_type_params := none }

/-- Witness for C10 at a concrete zero-measure simple metric. -/
theorem claim_C10_simple_metric_coalesce_witness :
    c10Metric.metric_type = .simpleMetric ∧
    ((c10Metric.input_measures = [] →
      computeMetricExpr sampleResolver "subq_0" c10Metric =
        .ok (.columnRef "subq_0" c10Metric.name)) ∧
    (∀ e, computeMetricExpr sampleResolver "subq_0" c10Metric = .ok e →
      (e.isCoalesce = true ↔
        ∃ im, c10Metric.input_measures = [im] ∧ im.fill_nulls_with ≠ none))) :=
  ⟨rfl, claim_C10_simple_metric_coalesce sampleResolver "subq_0" c10Metric rfl⟩

/-- Helper for the min-granularity fold: the fold result is in the list
headed by the accumulator and its granularity is minimal there. -/
theorem foldl_min_granularity_spec (rest : List TimeDimensionInstance) :
    ∀ a : TimeDimensionInstance,
      (rest.foldl (fun acc x =>
        if x.spec.time_granularity < acc.spec.time_granularity then x else acc) a) ∈
          a :: rest ∧
      ∀ i ∈ a :: rest,
        (rest.foldl (fun acc x =>
          if x.spec.time_granularity < acc.spec.time_granularity then x else acc)
            a).spec.time_granularity ≤ i.spec.time_granularity := by
  induction rest with
  | nil =>
    intro a
    constructor
    · simp
    · intro i hi
      simp at hi
      subst hi
      exact le_refl _
  | cons b rest ih =>
    intro a
    rw [List.foldl_cons]
    obtain ⟨hmem, hle⟩ := ih (if b.spec.time_granularity < a.spec.time_granularity then b else a)
    have hpick_le_a :
        (if b.spec.time_granularity < a.spec.time_granularity then b
          else a).spec.time_granularity ≤ a.spec.time_granularity := by
      split <;> omega
    have hpick_le_b :
        (if b.spec.time_granularity < a.spec.time_granularity then b
          else a).spec.time_granularity ≤ b.spec.time_granularity := by
      split <;> omega
    constructor
    · rcases List.mem_cons.1 hmem with h | h
      · rw [h]
        split
        · exact List.mem_cons_of_mem _ (List.mem_cons_self _ _)
        · exact List.mem_cons_self _ _
      · exact List.mem_cons_of_mem _ (List.mem_cons_of_mem _ h)
    · intro i hi
      have hres_le_pick :=
        hle _ (List.mem_cons_self _ _)
      rcases List.mem_cons.1 hi with h | hi2
      · subst h
        exact le_trans hres_le_pick hpick_le_a
      · rcases List.mem_cons.1 hi2 with h | h
        · subst h
          exact le_trans hres_le_pick hpick_le_b
        · exact hle _ (List.mem_cons_of_mem _ h)

/-- The first minimal-granularity element belongs to the list and attains
the minimum granularity. -/
theorem firstMinByGranularity_spec (l : List TimeDimensionInstance)
    (inst : TimeDimensionInstance) (h : firstMinByGranularity l = some inst) :
    inst ∈ l ∧ ∀ i ∈ l, inst.spec.time_granularity ≤ i.spec.time_granularity := by
  match l with
  | [] => simp [firstMinByGranularity] at h
  | a :: rest =>
    rw [firstMinByGranularity] at h
    obtain ⟨hmem, hle⟩ := foldl_min_granularity_spec rest a
    have : inst = rest.foldl (fun acc x =>
        if x.spec.time_granularity < acc.spec.time_granularity then x else acc) a := by
      simpa using h.symm
    subst this
    exact ⟨hmem, hle⟩

/-- C7: when the parent exposes a metric-time time-dimension instance, the
constrain-time-range handler picks the one with the smallest granularity,
succeeds, and emits a WHERE clause of the shape
`column BETWEEN start AND end` on that instance's associated column with
no DATE_TRUNC applied; when the parent exposes none, it aborts with an
error. -/
theorem claim_C7_constrain_time_range (r : Resolver)
    (time_range_constraint : TimeRangeConstraint) (from_data_set_alias : String)
    (from_instance_set : InstanceSet) (inst : TimeDimensionInstance)
    (h : firstMinByGranularity from_instance_set.metricTimeDimensionInstances = some inst) :
    (inst ∈ from_instance_set.metricTimeDimensionInstances ∧
      ∀ i ∈ from_instance_set.metricTimeDimensionInstances,
        inst.spec.time_granularity ≤ i.spec.time_granularity) ∧
    (∃ out, visit_constrain_time_range r time_range_constraint from_data_set_alias
        from_instance_set = .ok out ∧
      out.where_clause =
        .between (.columnRef from_data_set_alias inst.column_name)
          (.stringLiteral time_range_constraint.start_time)
          (.stringLiteral time_range_constraint.end_time)) ∧
    (∀ s2 : InstanceSet, s2.metricTimeDimensionInstances = [] →
      ∃ e, visit_constrain_time_range r time_range_constraint from_data_set_alias s2 =
        .error e) := by
  refine ⟨firstMinByGranularity_spec _ _ h, ?_, ?_⟩
  · simp only [visit_constrain_time_range, h, makeTimeRangeComparisonExpr]
    exact ⟨_, rfl, rfl⟩
  · intro s2 h2
    simp only [visit_constrain_time_range, h2, firstMinByGranularity]
    exact ⟨_, rfl⟩

/-- Concrete parent data set with two metric-time instances at day and
month granularity plus an unrelated time dimension. -/
def c7Input : InstanceSet :=
  { time_dimension_instances :=
      [{ spec := { element_name := "metric_time", entity_links := [], time_granularity := 3
                   date_part := none, aggregation_state := none }
         column_name := "metric_time__month" },
       { spec := { element_name := "metric_time", entity_links := [], time_granularity := 1
                   date_part := none, aggregation_state := none }
         column_name := "metric_time__day" },
       { spec := { element_name := "ds", entity_links := [], time_granularity := 0
                   date_part := none, aggregation_state := none }
         column_name := "ds" }] }

/-- The chosen metric-time instance of `c7Input`. -/
def c7Chosen : TimeDimensionInstance :=
  { spec := { element_name := "metric_time", entity_links := [], time_granularity := 1
              date_part := none, aggregation_state := none }
    column_name := "metric_time__day" }

/-- Witness for C7 at a concrete parent data set. -/
theorem claim_C7_constrain_time_range_witness :
    (c7Chosen ∈ c7Input.metricTimeDimensionInstances ∧
      ∀ i ∈ c7Input.metricTimeDimensionInstances,
        c7Chosen.spec.time_granularity ≤ i.spec.time_granularity) ∧
    (∃ out, visit_constrain_time_range sampleResolver
        { start_time := "2020-01-01", end_time := "2020-01-02" } "subq_1" c7Input = .ok out ∧
      out.where_clause =
        .between (.columnRef "subq_1" c7Chosen.column_name)
          (.stringLiteral "2020-01-01") (.stringLiteral "2020-01-02")) ∧
    (∀ s2 : InstanceSet, s2.metricTimeDimensionInstances = [] →
      ∃ e, visit_constrain_time_range sampleResolver
        { start_time := "2020-01-01", end_time := "2020-01-02" } "subq_1" s2 = .error e) :=
  claim_C7_constrain_time_range sampleResolver
    { start_time := "2020-01-01", end_time := "2020-01-02" } "subq_1" c7Input c7Chosen
    (by decide)

/-- Filtering an instance set by its own spec set is the identity, so the
`FilterElements(include_specs=from_data_set.instance_set.spec_set)` call
of `visit_join_on_entities_node` keeps every left-side instance. -/
theorem filterElements_specSet_self (s : InstanceSet) : filterElements s.specSet s = s := by
  cases s with
  | mk ms ds ts es mts gs mds =>
    simp only [filterElements, InstanceSet.specSet, InstanceSet.mk.injEq]
    refine ⟨?_, ?_, ?_, ?_, ?_, ?_, ?_⟩ <;>
      · apply List.filter_eq_self.mpr
        intro a ha
        simp only [decide_eq_true_eq]
        exact List.mem_map_of_mem _ ha

/-- Right-side contributions do not change measure instances: the leading
link filter and the link prepending only touch linkable instances. -/
theorem joinRightContribution_measures (r : Resolver) (join_on_entity : Option String)
    (rs : InstanceSet) :
    (joinRightContribution r join_on_entity rs).measure_instances = rs.measure_instances := by
  cases join_on_entity <;>
    simp [joinRightContribution, addLinkToLinkableElements,
      filterLinkableInstancesWithLeadingLink]

/-- Measure instances of the join-on-entities output: the demoted left
measures followed by the untouched right-side measures in target order. -/
theorem visit_join_on_entities_measures (r : Resolver) (fs : InstanceSet)
    (ts : List (Option String × InstanceSet)) :
    (visit_join_on_entities r fs ts).measure_instances =
      fs.measure_instances.map (fun m =>
        { m with aggregation_state := joinOnEntitiesStateMapping m.aggregation_state }) ++
      ts.flatMap (fun t => t.2.measure_instances) := by
  unfold visit_join_on_entities
  rw [filterElements_specSet_self]
  simp only [mergeInstanceSets, changeMeasureAggregationState, List.flatMap_cons]
  congr 1
  rw [List.flatMap_map]
  simp only [joinRightContribution_measures]

/-- C2: after all join targets are processed, every measure instance of
the left (FROM) data set appears in the join-on-entities output with
state PARTIAL when its input state was COMPLETE or PARTIAL and with state
NON_AGGREGATED when its input state was NON_AGGREGATED. -/
theorem claim_C2_left_measures_demoted (r : Resolver) (fs : InstanceSet)
    (ts : List (Option String × InstanceSet)) (m : MeasureInstance)
    (hm : m ∈ fs.measure_instances) :
    { m with aggregation_state :=
        if m.aggregation_state = .NON_AGGREGATED then .NON_AGGREGATED
        else .PARTIAL } ∈ (visit_join_on_entities r fs ts).measure_instances := by
  rw [visit_join_on_entities_measures]
  apply List.mem_append_left
  have heq : ({ m with aggregation_state := joinOnEntitiesStateMapping m.aggregation_state }
      : MeasureInstance) =
      { m with aggregation_state :=
          if m.aggregation_state = .NON_AGGREGATED then .NON_AGGREGATED else .PARTIAL } := by
    cases h : m.aggregation_state <;> simp [joinOnEntitiesStateMapping, h]
  rw [← heq]
  exact List.mem_map_of_mem _ hm

/-- Concrete left data set holding one fully aggregated measure. -/
def c2LeftSet : InstanceSet :=
  { measure_instances :=
      [{ spec := { element_name := "bookings" }, aggregation_state := .COMPLETE
         fill_nulls_with := none, column_name := "bookings" }] }

/-- Witness for C2: a COMPLETE left-side measure appears as PARTIAL in the
join output. -/
theorem claim_C2_left_measures_demoted_witness :
    ({ spec := { element_name := "bookings" }, aggregation_state := .COMPLETE
       fill_nulls_with := none, column_name := "bookings" } : MeasureInstance) ∈
      c2LeftSet.measure_instances ∧
    ({ spec := { element_name := "bookings" },
       aggregation_state :=
         if (AggregationState.COMPLETE = .NON_AGGREGATED) then .NON_AGGREGATED else .PARTIAL
       fill_nulls_with := none, column_name := "bookings" } : MeasureInstance) ∈
      (visit_join_on_entities sampleResolver c2LeftSet []).measure_instances :=
  ⟨by decide,
    claim_C2_left_measures_demoted sampleResolver c2LeftSet []
      { spec := { element_name := "bookings" }, aggregation_state := .COMPLETE
        fill_nulls_with := none, column_name := "bookings" } (by decide)⟩

/-- Entity-link chains of the linkable instances (dimensions, time
dimensions, entities) of an instance set. -/
def linkableEntityLinks (s : InstanceSet) : List (List String) :=
  s.dimension_instances.map (·.spec.entity_links) ++
    s.time_dimension_instances.map (·.spec.entity_links) ++
    s.entity_instances.map (·.spec.entity_links)

/-- Whether the entity appears at two consecutive positions of a chain. -/
def hasConsecutiveLink (e : String) : List String → Bool
  | [] => false
  | [_] => false
  | a :: b :: rest => if a = e ∧ b = e then true else hasConsecutiveLink e (b :: rest)

/-- Every chain in a right-side contribution for join entity `e` is `e`
prepended to a chain whose own head is not `e`. -/
theorem mem_linkableEntityLinks_contribution (r : Resolver) (e : String) (rs : InstanceSet)
    (links : List String)
    (h : links ∈ linkableEntityLinks (joinRightContribution r (some e) rs)) :
    ∃ old, links = e :: old ∧ old.head? ≠ some e := by
  simp only [joinRightContribution, addLinkToLinkableElements,
    filterLinkableInstancesWithLeadingLink, linkableEntityLinks, List.map_map,
    List.mem_append, List.mem_map, List.mem_filter, Function.comp,
    decide_eq_true_eq] at h
  rcases h with (⟨d, ⟨_, hd⟩, rfl⟩ | ⟨t, ⟨_, ht⟩, rfl⟩) | ⟨en, ⟨_, hen⟩, rfl⟩
  · exact ⟨d.spec.entity_links, rfl, hd⟩
  · exact ⟨t.spec.entity_links, rfl, ht⟩
  · exact ⟨en.spec.entity_links, rfl, hen⟩

/-- Linkable categories of the join-on-entities output: the left-side
instances followed by the per-target right contributions. -/
theorem visit_join_on_entities_linkables (r : Resolver) (fs : InstanceSet)
    (ts : List (Option String × InstanceSet)) :
    (visit_join_on_entities r fs ts).dimension_instances =
      fs.dimension_instances ++
        ts.flatMap (fun t => (joinRightContribution r t.1 t.2).dimension_instances) ∧
    (visit_join_on_entities r fs ts).time_dimension_instances =
      fs.time_dimension_instances ++
        ts.flatMap (fun t => (joinRightContribution r t.1 t.2).time_dimension_instances) ∧
    (visit_join_on_entities r fs ts).entity_instances =
      fs.entity_instances ++
        ts.flatMap (fun t => (joinRightContribution r t.1 t.2).entity_instances) := by
  unfold visit_join_on_entities
  rw [filterElements_specSet_self]
  refine ⟨?_, ?_, ?_⟩ <;>
    simp [mergeInstanceSets, changeMeasureAggregationState, List.flatMap_map]

/-- C3 (amended): for a join target with join entity `e`, every linkable
chain contributed by the right-side data set begins with `e` and does not
begin with `e` twice (the handler only prevents a duplicate at the head;
deeper consecutive duplicates carried by the right data set survive); the
contribution removes right-side instances whose leading link is already
`e` before prepending `e` to the rest, and its chains all reach the
join-on-entities output. -/
theorem claim_C3_amended_linkable_paths (r : Resolver) (fs : InstanceSet)
    (ts : List (Option String × InstanceSet)) (e : String) (rs : InstanceSet)
    (ht : (some e, rs) ∈ ts) (links : List String)
    (h : links ∈ linkableEntityLinks (joinRightContribution r (some e) rs)) :
    links.head? = some e ∧ links.tail.head? ≠ some e ∧
    joinRightContribution r (some e) rs =
      addLinkToLinkableElements r e (filterLinkableInstancesWithLeadingLink e rs) ∧
    links ∈ linkableEntityLinks (visit_join_on_entities r fs ts) := by
  obtain ⟨old, rfl, hold⟩ := mem_linkableEntityLinks_contribution r e rs links h
  obtain ⟨hd, htd, hen⟩ := visit_join_on_entities_linkables r fs ts
  refine ⟨rfl, hold, rfl, ?_⟩
  simp only [linkableEntityLinks, List.mem_append, List.mem_map] at h ⊢
  rcases h with (⟨d, hmem, hlk⟩ | ⟨t, hmem, hlk⟩) | ⟨en, hmem, hlk⟩
  · exact Or.inl (Or.inl ⟨d, by
      rw [hd]
      exact List.mem_append_right _ (List.mem_flatMap.2 ⟨(some e, rs), ht, hmem⟩), hlk⟩)
  · exact Or.inl (Or.inr ⟨t, by
      rw [htd]
      exact List.mem_append_right _ (List.mem_flatMap.2 ⟨(some e, rs), ht, hmem⟩), hlk⟩)
  · exact Or.inr ⟨en, by
      rw [hen]
      exact List.mem_append_right _ (List.mem_flatMap.2 ⟨(some e, rs), ht, hmem⟩), hlk⟩

/-- Concrete right-side data set whose dimension already carries the join
entity twice deeper in its chain. -/
def c3RightSet : InstanceSet :=
  { dimension_instances :=
      [{ spec := { element_name := "country", entity_links := ["a", "e", "e"] }
         column_name := "a__e__e__country" }] }

/-- Counterexample for C3 as stated: joining `c3RightSet` on entity `e`
produces a contributed dimension whose chain `e :: a :: e :: e` contains
`e` twice consecutively, contradicting the claim that no output chain
contains the join entity twice consecutively. -/
theorem claim_C3_counterexample :
    ["e", "a", "e", "e"] ∈
      linkableEntityLinks (visit_join_on_entities sampleResolver {}
        [(some "e", c3RightSet)]) ∧
    hasConsecutiveLink "e" ["e", "a", "e", "e"] = true := by
  constructor
  · decide
  · decide

/-- Concrete right-side data set with one dimension led by `e` (to be
filtered out) and one dimension without leading `e`. -/
def c3WitnessRight : InstanceSet :=
  { dimension_instances :=
      [{ spec := { element_name := "country", entity_links := ["e"] }
         column_name := "e__country" },
       { spec := { element_name := "city", entity_links := ["a"] }
         column_name := "a__city" }] }

/-- Witness for the amended C3 at a concrete join target. -/
theorem claim_C3_amended_linkable_paths_witness :
    (["e", "a"].head? = some "e") ∧ (["e", "a"].tail.head? ≠ some "e") ∧
    joinRightContribution sampleResolver (some "e") c3WitnessRight =
      addLinkToLinkableElements sampleResolver "e"
        (filterLinkableInstancesWithLeadingLink "e" c3WitnessRight) ∧
    ["e", "a"] ∈ linkableEntityLinks
      (visit_join_on_entities sampleResolver {} [(some "e", c3WitnessRight)]) :=
  claim_C3_amended_linkable_paths sampleResolver {} [(some "e", c3WitnessRight)] "e"
    c3WitnessRight (by decide) ["e", "a"] (by decide)

/-- The aggregate-measures state mapping sends every state to COMPLETE. -/
theorem aggregateMeasuresStateMapping_complete (st : AggregationState) :
    aggregateMeasuresStateMapping st = .COMPLETE := by
  cases st <;> rfl

/-- Membership through `updateMeasureFillNullsWith` preserves spec and
aggregation state. -/
theorem updateMeasureFillNullsWith_measure_src (specs : List MetricInputMeasureSpec)
    (s : InstanceSet) (m : MeasureInstance)
    (hm : m ∈ (updateMeasureFillNullsWith specs s).measure_instances) :
    ∃ m0 ∈ s.measure_instances,
      m.aggregation_state = m0.aggregation_state ∧ m.spec = m0.spec := by
  simp only [updateMeasureFillNullsWith, List.mem_map] at hm
  obtain ⟨m0, hm0, rfl⟩ := hm
  refine ⟨m0, hm0, ?_, ?_⟩ <;> cases hf : findInputSpec specs m0.spec.element_name <;> simp [hf]

/-- Membership through `aliasAggregatedMeasures` preserves aggregation
state. -/
theorem aliasAggregatedMeasures_measure_src (specs : List MetricInputMeasureSpec)
    (s : InstanceSet) (m : MeasureInstance)
    (hm : m ∈ (aliasAggregatedMeasures specs s).measure_instances) :
    ∃ m0 ∈ s.measure_instances, m.aggregation_state = m0.aggregation_state := by
  simp only [aliasAggregatedMeasures, List.mem_map] at hm
  obtain ⟨m0, hm0, rfl⟩ := hm
  refine ⟨m0, hm0, ?_⟩
  cases hf : findInputSpec specs m0.spec.element_name with
  | none => simp [hf]
  | some i => cases hi : i.alias_name <;> simp [hf, hi]

/-- Membership through `changeAssociatedColumns` preserves spec and
aggregation state of measures. -/
theorem changeAssociatedColumns_measure_src (r : Resolver) (s : InstanceSet)
    (m : MeasureInstance) (hm : m ∈ (changeAssociatedColumns r s).measure_instances) :
    ∃ m0 ∈ s.measure_instances,
      m.aggregation_state = m0.aggregation_state ∧ m.spec = m0.spec := by
  simp only [changeAssociatedColumns, List.mem_map] at hm
  obtain ⟨m0, hm0, rfl⟩ := hm
  exact ⟨m0, hm0, rfl, rfl⟩

/-- Every measure of the state-promoted set is COMPLETE. -/
theorem changeMeasureAggregationState_complete (s : InstanceSet) (m : MeasureInstance)
    (hm : m ∈ (changeMeasureAggregationState aggregateMeasuresStateMapping s).measure_instances) :
    m.aggregation_state = .COMPLETE := by
  simp only [changeMeasureAggregationState, List.mem_map] at hm
  obtain ⟨m0, _, rfl⟩ := hm
  exact aggregateMeasuresStateMapping_complete m0.aggregation_state

/-- C6: the aggregate-measures handler sets every output measure instance
to the COMPLETE aggregation state whatever its input state was, emits
exactly one measure select column per input measure wrapped in that
measure's aggregation function, and its GROUP BY list is exactly the
select-column set with the measure columns removed. -/
theorem claim_C6_aggregate_measures (r : Resolver)
    (aggTypeOfMeasure : String → AggregationType)
    (metric_input_measure_specs : List MetricInputMeasureSpec)
    (from_data_set_alias : String) (fs : InstanceSet) :
    (∀ m ∈ (visit_aggregate_measures r aggTypeOfMeasure metric_input_measure_specs
        from_data_set_alias fs).instance_set.measure_instances,
      m.aggregation_state = .COMPLETE) ∧
    ((visit_aggregate_measures r aggTypeOfMeasure metric_input_measure_specs
        from_data_set_alias fs).select_column_set.measure_columns.length =
      fs.measure_instances.length ∧
      ∀ c ∈ (visit_aggregate_measures r aggTypeOfMeasure metric_input_measure_specs
          from_data_set_alias fs).select_column_set.measure_columns,
        ∃ m ∈ fs.measure_instances,
          c.expr = buildExpressionFromAggregationType (aggTypeOfMeasure m.spec.element_name)
            (.columnRef from_data_set_alias (r.measure m.spec))) ∧
    (visit_aggregate_measures r aggTypeOfMeasure metric_input_measure_specs
        from_data_set_alias fs).select_columns =
      (visit_aggregate_measures r aggTypeOfMeasure metric_input_measure_specs
        from_data_set_alias fs).select_column_set.asTuple ∧
    (visit_aggregate_measures r aggTypeOfMeasure metric_input_measure_specs
        from_data_set_alias fs).group_bys =
      (visit_aggregate_measures r aggTypeOfMeasure metric_input_measure_specs
        from_data_set_alias fs).select_column_set.withoutMeasureColumns.asTuple ∧
    (visit_aggregate_measures r aggTypeOfMeasure metric_input_measure_specs
        from_data_set_alias fs).select_column_set.withoutMeasureColumns.measure_columns =
      [] := by
  refine ⟨?_, ⟨?_, ?_⟩, rfl, rfl, rfl⟩
  · intro m hm
    simp only [visit_aggregate_measures] at hm
    split at hm
    · obtain ⟨m3, hm3, hst3⟩ := changeAssociatedColumns_measure_src _ _ _ hm
      obtain ⟨m2, hm2, hst2⟩ := aliasAggregatedMeasures_measure_src _ _ _ hm3
      obtain ⟨m1, hm1, hst1, _⟩ := updateMeasureFillNullsWith_measure_src _ _ _ hm2
      obtain ⟨m0, hm0, hst0, _⟩ := changeAssociatedColumns_measure_src _ _ _ hm1
      have := changeMeasureAggregationState_complete _ _ hm0
      rw [hst3.1, hst2, hst1, hst0, this]
    · obtain ⟨m1, hm1, hst1, _⟩ := updateMeasureFillNullsWith_measure_src _ _ _ hm
      obtain ⟨m0, hm0, hst0, _⟩ := changeAssociatedColumns_measure_src _ _ _ hm1
      have := changeMeasureAggregationState_complete _ _ hm0
      rw [hst1, hst0, this]
  · simp [visit_aggregate_measures, createSelectColumnsWithMeasuresAggregated,
      updateMeasureFillNullsWith, changeAssociatedColumns, changeMeasureAggregationState]
  · intro c hc
    simp only [visit_aggregate_measures, createSelectColumnsWithMeasuresAggregated,
      List.mem_map] at hc
    obtain ⟨m2, hm2, rfl⟩ := hc
    obtain ⟨m1, hm1, _, hsp1⟩ := updateMeasureFillNullsWith_measure_src _ _ _ hm2
    obtain ⟨m0, hm0, _, hsp0⟩ := changeAssociatedColumns_measure_src _ _ _ hm1
    have hsp : m2.spec = m0.spec := hsp1.trans hsp0
    have hm0' : ∃ mf ∈ fs.measure_instances, m0.spec = mf.spec := by
      simp only [changeMeasureAggregationState, List.mem_map] at hm0
      obtain ⟨mf, hmf, rfl⟩ := hm0
      exact ⟨mf, hmf, rfl⟩
    obtain ⟨mf, hmf, hspf⟩ := hm0'
    exact ⟨mf, hmf, by rw [hsp, hspf]⟩

/-- The time-spine column loop fails exactly when some instance in the
remaining list has a granularity strictly smaller than the spine column
granularity. -/
theorem joinToTimeSpineColumnLoop_error_iff (r : Resolver) (original_spec : TimeDimensionSpec)
    (expr : SqlExpr) (need_where_filter : Bool) (requested : List TimeDimensionSpec)
    (l : List TimeDimensionInstance) :
    ∀ acc_columns acc_instances acc_where,
      (∃ e, joinToTimeSpineColumnLoop r original_spec expr need_where_filter requested l
        acc_columns acc_instances acc_where = .error e) ↔
      ∃ td ∈ l, td.spec.time_granularity < original_spec.time_granularity := by
  induction l with
  | nil =>
    intro acc_columns acc_instances acc_where
    simp [joinToTimeSpineColumnLoop]
  | cons ti rest ih =>
    intro acc_columns acc_instances acc_where
    rw [joinToTimeSpineColumnLoop]
    by_cases h : ti.spec.time_granularity < original_spec.time_granularity
    · rw [if_pos h]
      constructor
      · intro _
        exact ⟨ti, List.mem_cons_self _ _, h⟩
      · intro _
        exact ⟨_, rfl⟩
    · rw [if_neg h]
      show (∃ e, joinToTimeSpineColumnLoop r original_spec expr need_where_filter requested
          rest _ _ _ = .error e) ↔ _
      rw [ih]
      constructor
      · rintro ⟨td, htd, hlt⟩
        exact ⟨td, List.mem_cons_of_mem _ htd, hlt⟩
      · rintro ⟨td, htd, hlt⟩
        rcases List.mem_cons.1 htd with rfl | htd2
        · exact absurd hlt h
        · exact ⟨td, htd2, hlt⟩

/-- C8: given the agg-time target of the join-to-time-spine node and the
chosen minimal-granularity instance (whose granularity is that of the
constructed time spine column), the handler aborts with an error exactly
when some matching time-dimension instance to be selected from the time
spine has a strictly smaller granularity; when every such instance has
granularity at least that of the spine column, the handler succeeds. -/
theorem claim_C8_time_spine_granularity_check (r : Resolver) (use_custom : Bool)
    (requested : List TimeDimensionSpec) (offset_to_grain : Bool) (time_spine_alias : String)
    (ps : InstanceSet) (name : String) (links : List String)
    (hpick : joinToTimeSpineAggTimeTarget use_custom requested = .ok (name, links))
    (inst : TimeDimensionInstance)
    (hmin : firstMinByGranularity (ps.time_dimension_instances.filter
      (fun i => i.spec.date_part = none ∧ i.spec.element_name = name ∧
        i.spec.entity_links = links)) = some inst) :
    (∃ e, visit_join_to_time_spine r use_custom requested offset_to_grain time_spine_alias
        ps = .error e) ↔
      ∃ td ∈ ps.time_dimension_instances.filter
        (fun t => t.spec.element_name = name ∧ t.spec.entity_links = links),
        td.spec.time_granularity < inst.spec.time_granularity := by
  simp only [visit_join_to_time_spine, hpick]
  simp only [visit_join_to_time_spine_core, hmin]
  cases hl : joinToTimeSpineColumnLoop r inst.spec
      (.columnRef time_spine_alias inst.spec.qualifiedName)
      (offset_to_grain && decide (inst.spec ∉ requested)) requested
      (ps.time_dimension_instances.filter
        (fun t => t.spec.element_name = name ∧ t.spec.entity_links = links)) [] [] none with
  | error e0 =>
    simp only [hl]
    constructor
    · intro _
      exact (joinToTimeSpineColumnLoop_error_iff r inst.spec _ _ _ _ [] [] none).1 ⟨e0, hl⟩
    · intro _
      exact ⟨e0, rfl⟩
  | ok v =>
    obtain ⟨c1, c2, c3⟩ := v
    simp only [hl]
    constructor
    · rintro ⟨e, he⟩
      simp at he
    · intro hex
      obtain ⟨e, he⟩ :=
        (joinToTimeSpineColumnLoop_error_iff r inst.spec _ _ _ _ [] [] none).2 hex
      rw [hl] at he
      simp at he

/-- Inserting a fresh key appends the pair. -/
theorem assocInsert_of_not_mem (k v : String) (acc : List (String × String))
    (h : ∀ p ∈ acc, p.1 ≠ k) : assocInsert k v acc = acc ++ [(k, v)] := by
  induction acc with
  | nil => rfl
  | cons p rest ih =>
    obtain ⟨k', v'⟩ := p
    rw [assocInsert, if_neg (h (k', v') (List.mem_cons_self _ _)), List.cons_append]
    rw [ih (fun q hq => h q (List.mem_cons_of_mem _ hq))]

/-- Folding `assocInsert` over entries with pairwise distinct keys builds
the plain association list of the entries, in order. -/
theorem foldl_assocInsert_eq {α : Type} (key : α → String) (val : α → String)
    (l : List α) :
    ∀ acc : List (String × String), (∀ p ∈ acc, ∀ q ∈ l, p.1 ≠ key q) →
      (l.map key).Nodup →
      l.foldl (fun acc t => assocInsert (key t) (val t) acc) acc =
        acc ++ l.map (fun t => (key t, val t)) := by
  induction l with
  | nil =>
    intro acc _ _
    simp
  | cons q rest ih =>
    intro acc hdis hnd
    rw [List.foldl_cons]
    rw [List.map_cons] at hnd
    have hkey_notin : (key q) ∉ rest.map key := (List.nodup_cons.1 hnd).1
    have hnd2 : (rest.map key).Nodup := (List.nodup_cons.1 hnd).2
    have h1 : assocInsert (key q) (val q) acc = acc ++ [(key q, val q)] := by
      apply assocInsert_of_not_mem
      intro p hp
      exact hdis p hp q (List.mem_cons_self _ _)
    rw [h1, ih]
    · simp
    · intro p hp q' hq'
      rcases List.mem_append.1 hp with hp1 | hp2
      · exact hdis p hp1 q' (List.mem_cons_of_mem _ hq')
      · have hpq : p = (key q, val q) := by simpa using hp2
        subst hpq
        intro hEq
        apply hkey_notin
        have : key q' ∈ rest.map key := List.mem_map_of_mem _ hq'
        simpa [← hEq] using this
    · exact hnd2

/-- Lookup of a present key in an association list with distinct keys. -/
theorem assocLookup_of_nodup (l : List (String × String)) (k v : String)
    (hmem : (k, v) ∈ l) (hnd : (l.map (·.1)).Nodup) : assocLookup k l = some v := by
  induction l with
  | nil => simp at hmem
  | cons p rest ih =>
    rw [List.map_cons] at hnd
    have h1 : p.1 ∉ rest.map (·.1) := (List.nodup_cons.1 hnd).1
    have h2 : (rest.map (·.1)).Nodup := (List.nodup_cons.1 hnd).2
    by_cases hk : p.1 = k
    · have hpv : p = (k, v) := by
        rcases List.mem_cons.1 hmem with h | h
        · exact h.symm
        · exfalso
          apply h1
          rw [hk]
          exact List.mem_map_of_mem _ h
      rw [assocLookup, List.find?_cons_of_pos _ (by simp [hk]), hpv]
      rfl
    · have hmem2 : (k, v) ∈ rest := by
        rcases List.mem_cons.1 hmem with h | h
        · exact absurd (by rw [← h] : p.1 = k) hk
        · exact h
      rw [assocLookup, List.find?_cons_of_neg _ (by simp [hk])]
      show assocLookup k rest = some v
      exact ih hmem2 h2

/-- C4 (amended): the metric-time-transform output contains the mirrored
metric-time instance exactly for each parent time-dimension instance with
no entity links whose dimension reference equals the node's aggregation
time dimension, regardless of granularity AND date part (the code does not
exclude date-part variants); every mirror keeps the granularity and date
part of its source and its select column references the source instance's
column, provided the resolver assigns distinct column names to the
distinct mirrored specs. -/
theorem claim_C4_amended_metric_time_mirroring (r : Resolver) (manifest : String → String)
    (aggDim a : String) (input : InstanceSet)
    (hnodup : ((input.time_dimension_instances.filter
        (matchesAggregationTimeDimension aggDim)).map
        (fun t => (mirroredMetricTimeInstance r t).column_name)).Nodup) :
    (visit_metric_time_dimension_transform r manifest aggDim a
        input).instance_set.time_dimension_instances =
      (input.time_dimension_instances ++
        (input.time_dimension_instances.filter (matchesAggregationTimeDimension aggDim)).map
          (mirroredMetricTimeInstance r)).map
        (fun t => { t with column_name := r.timeDimension t.spec }) ∧
    ∀ t ∈ input.time_dimension_instances.filter (matchesAggregationTimeDimension aggDim),
      (mirroredMetricTimeInstance r t).spec.element_name = METRIC_TIME_ELEMENT_NAME ∧
      (mirroredMetricTimeInstance r t).spec.time_granularity = t.spec.time_granularity ∧
      (mirroredMetricTimeInstance r t).spec.date_part = t.spec.date_part ∧
      (mirroredMetricTimeInstance r t).spec.entity_links = [] ∧
      assocLookup (mirroredMetricTimeInstance r t).column_name
        (visit_metric_time_dimension_transform r manifest aggDim a
          input).output_column_to_input_column = some t.column_name ∧
      ({ expr := SqlExpr.columnRef a t.column_name,
         column_alias := (mirroredMetricTimeInstance r t).column_name } : SqlSelectColumn) ∈
        (visit_metric_time_dimension_transform r manifest aggDim a input).select_columns := by
  have hmapping : (visit_metric_time_dimension_transform r manifest aggDim a
      input).output_column_to_input_column =
      (input.time_dimension_instances.filter
        (matchesAggregationTimeDimension aggDim)).map
        (fun t => ((mirroredMetricTimeInstance r t).column_name, t.column_name)) := by
    simp only [visit_metric_time_dimension_transform]
    rw [foldl_assocInsert_eq (fun t => (mirroredMetricTimeInstance r t).column_name)
      (fun t => t.column_name) _ [] (by simp) hnodup]
    simp
  constructor
  · simp only [visit_metric_time_dimension_transform, changeAssociatedColumns]
  · intro t ht
    refine ⟨rfl, rfl, rfl, rfl, ?_, ?_⟩
    · rw [hmapping]
      apply assocLookup_of_nodup
      · exact List.mem_map_of_mem _ ht
      · simpa [List.map_map, Function.comp] using hnodup
    · simp only [visit_metric_time_dimension_transform, createSelectColumnsForInstances,
        SelectColumnSet.asTuple, changeAssociatedColumns]
      rw [foldl_assocInsert_eq (fun u => (mirroredMetricTimeInstance r u).column_name)
        (fun u => u.column_name) _ [] (by simp) hnodup, List.nil_append]
      apply List.mem_append_left
      apply List.mem_append_left
      apply List.mem_append_left
      apply List.mem_append_left
      apply List.mem_append_right
      rw [List.map_map]
      refine List.mem_map.2 ⟨mirroredMetricTimeInstance r t,
        List.mem_append_right _ (List.mem_map_of_mem _ ht), ?_⟩
      have hlook : assocLookup (r.timeDimension (mirroredMetricTimeInstance r t).spec)
          ((input.time_dimension_instances.filter
            (matchesAggregationTimeDimension aggDim)).map
            (fun u => ((mirroredMetricTimeInstance r u).column_name, u.column_name))) =
          some t.column_name := by
        apply assocLookup_of_nodup
        · exact List.mem_map_of_mem _ ht
        · simpa [List.map_map, Function.comp] using hnodup
      simp only [Function.comp, hlook, Option.getD_some]
      rfl

/-- Concrete parent data set whose only time-dimension instance is a
date-part variant of the aggregation time dimension. -/
def c4Input : InstanceSet :=
  { time_dimension_instances :=
      [{ spec := { element_name := "ds", entity_links := [], time_granularity := 0
                   date_part := some 1, aggregation_state := none }
         column_name := "ds__g0__dp1" }] }

/-- Counterexample for C4 as stated: the parent has no metric-time
instance and its only matching instance is a date-part variant, so under
the claim (mirroring excludes date-part variants, and no metric-time
sibling is created for any other parent instance) every metric-time
output instance would carry no date part; the code nevertheless mirrors
the date-part variant. -/
theorem claim_C4_counterexample :
    ¬ (∀ t ∈ (visit_metric_time_dimension_transform sampleResolver (fun _ => "ds") "ds"
        "subq_2" c4Input).instance_set.time_dimension_instances,
        t.spec.element_name = METRIC_TIME_ELEMENT_NAME → t.spec.date_part = none) := by
  decide

/-- Witness for the amended C4 at the concrete date-part input. -/
theorem claim_C4_amended_metric_time_mirroring_witness :
    (((c4Input.time_dimension_instances.filter
        (matchesAggregationTimeDimension "ds")).map
        (fun t => (mirroredMetricTimeInstance sampleResolver t).column_name)).Nodup) ∧
    ((visit_metric_time_dimension_transform sampleResolver (fun _ => "ds") "ds" "subq_2"
        c4Input).instance_set.time_dimension_instances =
      (c4Input.time_dimension_instances ++
        (c4Input.time_dimension_instances.filter (matchesAggregationTimeDimension "ds")).map
          (mirroredMetricTimeInstance sampleResolver)).map
        (fun t => { t with column_name := sampleResolver.timeDimension t.spec }) ∧
    ∀ t ∈ c4Input.time_dimension_instances.filter (matchesAggregationTimeDimension "ds"),
      (mirroredMetricTimeInstance sampleResolver t).spec.element_name =
        METRIC_TIME_ELEMENT_NAME ∧
      (mirroredMetricTimeInstance sampleResolver t).spec.time_granularity =
        t.spec.time_granularity ∧
      (mirroredMetricTimeInstance sampleResolver t).spec.date_part = t.spec.date_part ∧
      (mirroredMetricTimeInstance sampleResolver t).spec.entity_links = [] ∧
      assocLookup (mirroredMetricTimeInstance sampleResolver t).column_name
        (visit_metric_time_dimension_transform sampleResolver (fun _ => "ds") "ds" "subq_2"
          c4Input).output_column_to_input_column = some t.column_name ∧
      ({ expr := SqlExpr.columnRef "subq_2" t.column_name,
         column_alias := (mirroredMetricTimeInstance sampleResolver t).column_name } :
           SqlSelectColumn) ∈
        (visit_metric_time_dimension_transform sampleResolver (fun _ => "ds") "ds" "subq_2"
          c4Input).select_columns) :=
  ⟨by decide,
    claim_C4_amended_metric_time_mirroring sampleResolver (fun _ => "ds") "ds" "subq_2"
      c4Input (by decide)⟩

/-- C5 (amended): the SELECT emitted by the metric-time transform projects
exactly the columns of the output instance-set categories in order — the
kept measures, all parent dimensions, all parent time dimensions plus the
mirrored metric-time columns, the entities and the metrics — while parent
metadata and group-by-metric instances are dropped along with the measures
whose aggregation time dimension does not match the node's. -/
theorem claim_C5_amended_projection (r : Resolver) (manifest : String → String)
    (aggDim a : String) (input : InstanceSet) :
    (visit_metric_time_dimension_transform r manifest aggDim a input).select_columns.map
        (·.column_alias) =
      (visit_metric_time_dimension_transform r manifest aggDim a
          input).instance_set.measure_instances.map (·.column_name) ++
      (visit_metric_time_dimension_transform r manifest aggDim a
          input).instance_set.dimension_instances.map (·.column_name) ++
      (visit_metric_time_dimension_transform r manifest aggDim a
          input).instance_set.time_dimension_instances.map (·.column_name) ++
      (visit_metric_time_dimension_transform r manifest aggDim a
          input).instance_set.entity_instances.map (·.column_name) ++
      (visit_metric_time_dimension_transform r manifest aggDim a
          input).instance_set.metric_instances.map (·.column_name) ∧
    (visit_metric_time_dimension_transform r manifest aggDim a
        input).instance_set.metadata_instances = [] ∧
    (visit_metric_time_dimension_transform r manifest aggDim a
        input).instance_set.group_by_metric_instances = [] ∧
    (visit_metric_time_dimension_transform r manifest aggDim a
        input).instance_set.measure_instances =
      (input.measure_instances.filter
        (fun m => manifest m.spec.element_name = aggDim)).map
        (fun m => { m with column_name := r.measure m.spec }) ∧
    (visit_metric_time_dimension_transform r manifest aggDim a
        input).instance_set.dimension_instances =
      input.dimension_instances.map (fun d => { d with column_name := r.dimension d.spec }) ∧
    (visit_metric_time_dimension_transform r manifest aggDim a
        input).instance_set.entity_instances =
      input.entity_instances.map (fun e => { e with column_name := r.entity e.spec }) ∧
    (visit_metric_time_dimension_transform r manifest aggDim a
        input).instance_set.metric_instances =
      input.metric_instances.map (fun m => { m with column_name := r.metric m.spec }) := by
  refine ⟨?_, rfl, rfl, rfl, rfl, rfl, rfl⟩
  simp [visit_metric_time_dimension_transform, createSelectColumnsForInstances,
    SelectColumnSet.asTuple, changeAssociatedColumns, List.map_map, Function.comp_def]

/-- Concrete parent data set carrying one metadata instance. -/
def c5Input : InstanceSet :=
  { metadata_instances :=
      [{ spec := { element_name := "row_uuid", agg_type := none }
         column_name := "row_uuid" }] }

/-- Counterexample for C5 as stated: the parent metadata column does not
appear among the select-column aliases of the metric-time-transform
output, so the handler does not project parent metadata columns. -/
theorem claim_C5_counterexample :
    c5Input.metadata_instances ≠ [] ∧
    ¬ ("row_uuid" ∈ (visit_metric_time_dimension_transform sampleResolver (fun _ => "ds")
        "ds" "subq_3" c5Input).select_columns.map (·.column_alias)) := by
  decide

/-- Concrete parent data set for the time-spine join: the non-date-part
metric-time instance sits at granularity 2, while a date-part variant sits
at the strictly finer granularity 1. -/
def c8Input : InstanceSet :=
  { time_dimension_instances :=
      [{ spec := { element_name := "metric_time", entity_links := [], time_granularity := 2
                   date_part := none, aggregation_state := none }
         column_name := "metric_time__g2" },
       { spec := { element_name := "metric_time", entity_links := [], time_granularity := 1
                   date_part := some 0, aggregation_state := none }
         column_name := "metric_time__g1__dp0" }] }

/-- The chosen spine instance of `c8Input`. -/
def c8Chosen : TimeDimensionInstance :=
  { spec := { element_name := "metric_time", entity_links := [], time_granularity := 2
              date_part := none, aggregation_state := none }
    column_name := "metric_time__g2" }

/-- Witness for C8 at a concrete parent data set. -/
theorem claim_C8_time_spine_granularity_check_witness :
    (∃ e, visit_join_to_time_spine sampleResolver false [] false "ts" c8Input =
      .error e) ↔
      ∃ td ∈ c8Input.time_dimension_instances.filter
        (fun t => t.spec.element_name = "metric_time" ∧
          t.spec.entity_links = ([] : List String)),
        td.spec.time_granularity < c8Chosen.spec.time_granularity :=
  claim_C8_time_spine_granularity_check sampleResolver false [] false "ts" c8Input
    "metric_time" [] rfl c8Chosen (by decide)

/-- Every aggregation-state rank is at most the rank of COMPLETE. -/
theorem AggregationState.toInt_le_two (s : AggregationState) : s.toInt ≤ 2 := by
  cases s <;> simp [AggregationState.toInt]

/-- Measures of the output of the aggregate-measures handler are all in
the COMPLETE state. -/
theorem visit_aggregate_measures_state_complete (r : Resolver)
    (aggTypeOfMeasure : String → AggregationType)
    (metric_input_measure_specs : List MetricInputMeasureSpec)
    (from_data_set_alias : String) (fs : InstanceSet) :
    ∀ m ∈ (visit_aggregate_measures r aggTypeOfMeasure metric_input_measure_specs
        from_data_set_alias fs).instance_set.measure_instances,
      m.aggregation_state = .COMPLETE := by
  intro m hm
  simp only [visit_aggregate_measures] at hm
  split at hm
  · obtain ⟨m3, hm3, hst3⟩ := changeAssociatedColumns_measure_src _ _ _ hm
    obtain ⟨m2, hm2, hst2⟩ := aliasAggregatedMeasures_measure_src _ _ _ hm3
    obtain ⟨m1, hm1, hst1, _⟩ := updateMeasureFillNullsWith_measure_src _ _ _ hm2
    obtain ⟨m0, hm0, hst0, _⟩ := changeAssociatedColumns_measure_src _ _ _ hm1
    have := changeMeasureAggregationState_complete _ _ hm0
    rw [hst3.1, hst2, hst1, hst0, this]
  · obtain ⟨m1, hm1, hst1, _⟩ := updateMeasureFillNullsWith_measure_src _ _ _ hm
    obtain ⟨m0, hm0, hst0, _⟩ := changeAssociatedColumns_measure_src _ _ _ hm1
    have := changeMeasureAggregationState_complete _ _ hm0
    rw [hst1, hst0, this]

/-- Membership in the filtered instance set implies membership in the
original. -/
theorem filterElements_measures_mem (include_specs : SpecSet) (s : InstanceSet)
    (m : MeasureInstance) (h : m ∈ (filterElements include_specs s).measure_instances) :
    m ∈ s.measure_instances := by
  simp only [filterElements, List.mem_filter] at h
  exact h.1

/-- Compiled measures of a node that compiled successfully. -/
theorem compiledMeasures_eq (env : CompileEnv) (p : DataflowNode) (s : InstanceSet)
    (h : compile env p = .ok s) : compiledMeasures env p = s.measure_instances := by
  rw [compiledMeasures, h]

/-- A measure of a successfully compiled parent belongs to the pooled
parent measures of the node. -/
theorem mem_allParentMeasures (env : CompileEnv) (n p : DataflowNode)
    (hp : p ∈ parentsOf n) (s : InstanceSet) (hc : compile env p = .ok s)
    (m : MeasureInstance) (hm : m ∈ s.measure_instances) :
    m ∈ allParentMeasures env n := by
  rw [allParentMeasures]
  refine List.mem_flatMap.2 ⟨p, hp, ?_⟩
  rw [compiledMeasures_eq env p s hc]
  exact hm

/-- Each instance set produced by `compileTargets` comes from compiling
one of the target nodes. -/
theorem compileTargets_sets (env : CompileEnv) (jt : JoinTargets)
    (ts : List (Option String × InstanceSet)) (h : compileTargets env jt = .ok ts) :
    ∀ p ∈ ts, ∃ nd ∈ jt.nodes, compile env nd = .ok p.2 := by
  match jt with
  | .nil =>
    simp only [compileTargets] at h
    obtain rfl : ([] : List (Option String × InstanceSet)) = ts := Except.ok.inj h
    intro p hp
    simp at hp
  | .cons e nd rest =>
    intro p hp
    simp only [compileTargets] at h
    cases h1 : compile env nd with
    | error e0 => simp [h1] at h
    | ok s =>
      simp only [h1] at h
      cases h2 : compileTargets env rest with
      | error e0 => simp [h2] at h
      | ok others =>
        simp only [h2] at h
        obtain rfl : ((e, s) :: others) = ts := Except.ok.inj h
        rcases List.mem_cons.1 hp with rfl | hp2
        · exact ⟨nd, List.mem_cons_self _ _, h1⟩
        · obtain ⟨nd2, hnd2, hc2⟩ := compileTargets_sets env rest others h2 p hp2
          exact ⟨nd2, List.mem_cons_of_mem _ hnd2, hc2⟩

/-- Each instance set produced by `compileList` comes from compiling one
of the listed nodes. -/
theorem compileList_sets (env : CompileEnv) (nl : DataflowNodeList)
    (ss : List InstanceSet) (h : compileList env nl = .ok ss) :
    ∀ s ∈ ss, ∃ nd ∈ nl.toList, compile env nd = .ok s := by
  match nl with
  | .nil =>
    simp only [compileList] at h
    obtain rfl : ([] : List InstanceSet) = ss := Except.ok.inj h
    intro s hs
    simp at hs
  | .cons nd rest =>
    intro s hs
    simp only [compileList] at h
    cases h1 : compile env nd with
    | error e0 => simp [h1] at h
    | ok s0 =>
      simp only [h1] at h
      cases h2 : compileList env rest with
      | error e0 => simp [h2] at h
      | ok others =>
        simp only [h2] at h
        obtain rfl : (s0 :: others) = ss := Except.ok.inj h
        rcases List.mem_cons.1 hs with rfl | hs2
        · exact ⟨nd, List.mem_cons_self _ _, h1⟩
        · obtain ⟨nd2, hnd2, hc2⟩ := compileList_sets env rest others h2 s hs2
          exact ⟨nd2, List.mem_cons_of_mem _ hnd2, hc2⟩

/-- A successful constrain-time-range run re-resolves the parent instance
set unchanged. -/
theorem visit_constrain_time_range_ok_instance_set (r : Resolver)
    (c : TimeRangeConstraint) (a : String) (s : InstanceSet)
    (out : ConstrainTimeRangeOutput)
    (h : visit_constrain_time_range r c a s = .ok out) :
    out.instance_set = changeAssociatedColumns r s := by
  unfold visit_constrain_time_range at h
  split at h
  · cases h
  · obtain rfl := Except.ok.inj h
    rfl

/-- A successful join-to-time-spine run keeps the parent measure
instances unchanged. -/
theorem visit_join_to_time_spine_ok_measures (r : Resolver) (uc : Bool)
    (req : List TimeDimensionSpec) (og : Bool) (ta : String) (ps : InstanceSet)
    (out : JoinToTimeSpineOutput)
    (h : visit_join_to_time_spine r uc req og ta ps = .ok out) :
    out.instance_set.measure_instances = ps.measure_instances := by
  unfold visit_join_to_time_spine at h
  split at h
  · cases h
  · rename_i agg_name agg_links heq
    unfold visit_join_to_time_spine_core at h
    dsimp only at h
    split at h
    · cases h
    · split at h
      · cases h
      · obtain rfl := Except.ok.inj h
        simp [mergeInstanceSets]

/-- Source tracing through a column re-resolution of a compiled parent. -/
theorem trace_src_of_changeAssoc (env : CompileEnv) (n p : DataflowNode)
    (hp : p ∈ parentsOf n) (s : InstanceSet) (hcp : compile env p = .ok s)
    (mc : MeasureInstance)
    (hmc : mc ∈ (changeAssociatedColumns env.resolver s).measure_instances) :
    ∃ src ∈ allParentMeasures env n, src.spec = mc.spec ∧
      mc.aggregation_state = src.aggregation_state := by
  obtain ⟨m0, hm0, hst, hsp⟩ := changeAssociatedColumns_measure_src _ _ _ hmc
  exact ⟨m0, mem_allParentMeasures env n p hp s hcp m0 hm0, hsp.symm, hst⟩

/-- Measure-state tracing for one compilation step: every measure instance
in a node's compiled output either is COMPLETE, or the node has no
parents, or traces to a same-spec measure instance in some parent's
compiled output whose state it preserves — except that a join-on-entities
node may turn a COMPLETE source into a PARTIAL output. -/
theorem compile_measures_trace (env : CompileEnv) (n : DataflowNode) (cOut : InstanceSet)
    (hc : compile env n = .ok cOut) :
    ∀ mc ∈ cOut.measure_instances,
      mc.aggregation_state = .COMPLETE ∨ parentsOf n = [] ∨
      ∃ src ∈ allParentMeasures env n, src.spec = mc.spec ∧
        (mc.aggregation_state = src.aggregation_state ∨
          (n.isJoinOnEntities ∧ src.aggregation_state = .COMPLETE ∧
            mc.aggregation_state = .PARTIAL)) := by
  intro mc hmc
  cases n with
  | readSource ds => exact Or.inr (Or.inl rfl)
  | joinOverTimeRange p spec =>
    right; right
    simp only [compile] at hc
    cases hcp : compile env p with
    | error e => simp [hcp] at hc
    | ok s =>
      simp only [hcp] at hc
      split at hc
      · obtain rfl := Except.ok.inj hc
        obtain ⟨src, hsrc, hsp, hst⟩ := trace_src_of_changeAssoc env (.joinOverTimeRange p spec) p
          (by simp [parentsOf]) s hcp mc hmc
        exact ⟨src, hsrc, hsp, Or.inl hst⟩
      · cases hc
  | joinOnEntities left_node join_targets =>
    right; right
    simp only [compile] at hc
    cases hcl : compile env left_node with
    | error e => simp [hcl] at hc
    | ok ls =>
      simp only [hcl] at hc
      cases hct : compileTargets env join_targets with
      | error e => simp [hct] at hc
      | ok ts =>
        simp only [hct] at hc
        obtain rfl := Except.ok.inj hc
        rw [visit_join_on_entities_measures] at hmc
        rcases List.mem_append.1 hmc with hL | hR
        · obtain ⟨m0, hm0, rfl⟩ := List.mem_map.1 hL
          refine ⟨m0, mem_allParentMeasures env (.joinOnEntities left_node join_targets) left_node (by simp [parentsOf])
            ls hcl m0 hm0, rfl, ?_⟩
          cases hst : m0.aggregation_state with
          | NON_AGGREGATED => left; simp [joinOnEntitiesStateMapping, hst]
          | PARTIAL => left; simp [joinOnEntitiesStateMapping, hst]
          | COMPLETE =>
            right
            refine ⟨trivial, rfl, ?_⟩
            simp [joinOnEntitiesStateMapping, hst]
        · obtain ⟨t, htmem, hmem2⟩ := List.mem_flatMap.1 hR
          obtain ⟨nd, hnd, hcnd⟩ := compileTargets_sets env join_targets ts hct t htmem
          exact ⟨mc, mem_allParentMeasures env (.joinOnEntities left_node join_targets) nd (by simp [parentsOf]; exact Or.inr hnd)
            t.2 hcnd mc hmem2, rfl, Or.inl rfl⟩
  | aggregateMeasures p specs =>
    simp only [compile] at hc
    cases hcp : compile env p with
    | error e => simp [hcp] at hc
    | ok s =>
      simp only [hcp] at hc
      obtain rfl := Except.ok.inj hc
      exact Or.inl (visit_aggregate_measures_state_complete _ _ _ _ _ mc hmc)
  | computeMetrics p specs fg =>
    simp only [compile] at hc
    cases hcp : compile env p with
    | error e => simp [hcp] at hc
    | ok s =>
      simp only [hcp] at hc
      split at hc
      · cases hc
      · split at hc
        · split at hc
          · obtain rfl := Except.ok.inj hc
            simp [addGroupByMetric, removeMetrics, changeAssociatedColumns,
              removeMeasures] at hmc
          · cases hc
        · obtain rfl := Except.ok.inj hc
          simp [addMetrics, removeMetrics, changeAssociatedColumns, removeMeasures] at hmc
  | orderByLimit p =>
    right; right
    simp only [compile] at hc
    cases hcp : compile env p with
    | error e => simp [hcp] at hc
    | ok s =>
      simp only [hcp] at hc
      obtain rfl := Except.ok.inj hc
      obtain ⟨src, hsrc, hsp, hst⟩ := trace_src_of_changeAssoc env (.orderByLimit p) p
        (by simp [parentsOf]) s hcp mc hmc
      exact ⟨src, hsrc, hsp, Or.inl hst⟩
  | filterElementsNode p inc dist =>
    right; right
    simp only [compile] at hc
    cases hcp : compile env p with
    | error e => simp [hcp] at hc
    | ok s =>
      simp only [hcp] at hc
      obtain rfl := Except.ok.inj hc
      obtain ⟨m1, hm1, hst, hsp⟩ := changeAssociatedColumns_measure_src _ _ _ hmc
      have hm0 := filterElements_measures_mem inc s m1 hm1
      exact ⟨m1, mem_allParentMeasures env (.filterElementsNode p inc dist) p (by simp [parentsOf]) s hcp m1 hm0,
        hsp.symm, Or.inl hst⟩
  | whereConstraint p =>
    right; right
    simp only [compile] at hc
    cases hcp : compile env p with
    | error e => simp [hcp] at hc
    | ok s =>
      simp only [hcp] at hc
      obtain rfl := Except.ok.inj hc
      obtain ⟨src, hsrc, hsp, hst⟩ := trace_src_of_changeAssoc env (.whereConstraint p) p
        (by simp [parentsOf]) s hcp mc hmc
      exact ⟨src, hsrc, hsp, Or.inl hst⟩
  | combineAggregatedOutputs parents =>
    right; right
    simp only [compile] at hc
    cases hcl : compileList env parents with
    | error e => simp [hcl] at hc
    | ok sets =>
      simp only [hcl] at hc
      split at hc
      · split at hc
        · obtain rfl := Except.ok.inj hc
          obtain ⟨m0, hm0, hst, hsp⟩ := changeAssociatedColumns_measure_src _ _ _ hmc
          simp only [mergeInstanceSets, List.mem_flatMap] at hm0
          obtain ⟨si, hsi, hmem⟩ := hm0
          obtain ⟨nd, hnd, hcnd⟩ := compileList_sets env parents _ hcl si hsi
          exact ⟨m0, mem_allParentMeasures env (.combineAggregatedOutputs parents) nd (by simpa [parentsOf] using hnd) si hcnd m0 hmem,
            hsp.symm, Or.inl hst⟩
        · cases hc
      · cases hc
  | constrainTimeRange p c =>
    right; right
    simp only [compile] at hc
    cases hcp : compile env p with
    | error e => simp [hcp] at hc
    | ok s =>
      simp only [hcp] at hc
      cases hv : visit_constrain_time_range env.resolver c "from_source" s with
      | error e => simp [hv] at hc
      | ok out =>
        simp only [hv] at hc
        obtain rfl := Except.ok.inj hc
        rw [visit_constrain_time_range_ok_instance_set _ _ _ _ _ hv] at hmc
        obtain ⟨src, hsrc, hsp, hst⟩ := trace_src_of_changeAssoc env (.constrainTimeRange p c) p
          (by simp [parentsOf]) s hcp mc hmc
        exact ⟨src, hsrc, hsp, Or.inl hst⟩
  | metricTimeDimensionTransform p ref =>
    right; right
    simp only [compile] at hc
    cases hcp : compile env p with
    | error e => simp [hcp] at hc
    | ok s =>
      simp only [hcp] at hc
      obtain rfl := Except.ok.inj hc
      simp only [visit_metric_time_dimension_transform, changeAssociatedColumns,
        List.mem_map, List.mem_filter] at hmc
      obtain ⟨m1, ⟨hm1, _⟩, rfl⟩ := hmc
      exact ⟨m1, mem_allParentMeasures env (.metricTimeDimensionTransform p ref) p (by simp [parentsOf]) s hcp m1 hm1,
        rfl, Or.inl rfl⟩
  | semiAdditiveJoin p =>
    right; right
    simp only [compile] at hc
    cases hcp : compile env p with
    | error e => simp [hcp] at hc
    | ok s =>
      simp only [hcp] at hc
      obtain rfl := Except.ok.inj hc
      obtain ⟨src, hsrc, hsp, hst⟩ := trace_src_of_changeAssoc env (.semiAdditiveJoin p) p
        (by simp [parentsOf]) s hcp mc hmc
      exact ⟨src, hsrc, hsp, Or.inl hst⟩
  | joinToTimeSpine p uc req og =>
    right; right
    simp only [compile] at hc
    cases hcp : compile env p with
    | error e => simp [hcp] at hc
    | ok s =>
      simp only [hcp] at hc
      cases hv : visit_join_to_time_spine env.resolver uc req og "time_spine" s with
      | error e => simp [hv] at hc
      | ok out =>
        simp only [hv] at hc
        obtain rfl := Except.ok.inj hc
        rw [visit_join_to_time_spine_ok_measures _ _ _ _ _ _ _ hv] at hmc
        exact ⟨mc, mem_allParentMeasures env (.joinToTimeSpine p uc req og) p (by simp [parentsOf]) s hcp mc hmc,
          rfl, Or.inl rfl⟩
  | minMax p col =>
    simp only [compile] at hc
    cases hcp : compile env p with
    | error e => simp [hcp] at hc
    | ok s =>
      simp only [hcp] at hc
      obtain rfl := Except.ok.inj hc
      simp [convertToMetadata] at hmc
  | addGeneratedUuidColumn p =>
    right; right
    simp only [compile] at hc
    cases hcp : compile env p with
    | error e => simp [hcp] at hc
    | ok s =>
      simp only [hcp] at hc
      obtain rfl := Except.ok.inj hc
      simp only [addMetadata] at hmc
      exact ⟨mc, mem_allParentMeasures env (.addGeneratedUuidColumn p) p (by simp [parentsOf]) s hcp mc hmc,
        rfl, Or.inl rfl⟩
  | joinConversionEvents base_node conversion_node cms =>
    right; right
    simp only [compile] at hc
    cases hcb : compile env base_node with
    | error e => simp [hcb] at hc
    | ok bs =>
      simp only [hcb] at hc
      cases hcc2 : compile env conversion_node with
      | error e => simp [hcc2] at hc
      | ok cs =>
        simp only [hcc2] at hc
        obtain rfl := Except.ok.inj hc
        obtain ⟨m0, hm0, hst, hsp⟩ := changeAssociatedColumns_measure_src _ _ _ hmc
        simp only [mergeInstanceSets, List.flatMap_cons, List.flatMap_nil,
          List.append_nil, List.mem_append] at hm0
        rcases hm0 with hconv | hbase
        · have hm0c := filterElements_measures_mem _ cs m0 hconv
          exact ⟨m0, mem_allParentMeasures env (.joinConversionEvents base_node conversion_node cms) conversion_node
            (by simp [parentsOf]) cs hcc2 m0 hm0c, hsp.symm, Or.inl hst⟩
        · exact ⟨m0, mem_allParentMeasures env (.joinConversionEvents base_node conversion_node cms) base_node
            (by simp [parentsOf]) bs hcb m0 hbase, hsp.symm, Or.inl hst⟩
  | writeToResultDataTable p =>
    right; right
    simp only [compile] at hc
    exact ⟨mc, mem_allParentMeasures env (.writeToResultDataTable p) p (by simp [parentsOf]) cOut hc mc hmc,
      rfl, Or.inl rfl⟩
  | writeToResultTable p =>
    right; right
    simp only [compile] at hc
    cases hcp : compile env p with
    | error e => simp [hcp] at hc
    | ok s =>
      simp only [hcp] at hc
      obtain rfl := Except.ok.inj hc
      exact ⟨mc, mem_allParentMeasures env (.writeToResultTable p) p (by simp [parentsOf]) s hcp mc hmc,
        rfl, Or.inl rfl⟩

/-- C1 (amended): along every parent-to-child edge of a compiled dataflow
plan, matching measure instances by element name — unambiguous when
measure names are pairwise distinct across the compiled outputs of the
child's parents — the aggregation state never decreases under the order
NON_AGGREGATED < PARTIAL < COMPLETE, except that a join-on-entities child
demotes a COMPLETE parent measure to PARTIAL. -/
theorem claim_C1_amended_state_monotonicity (env : CompileEnv)
    (child parent : DataflowNode) (hp : parent ∈ parentsOf child)
    (pOut cOut : InstanceSet) (hpc : compile env parent = .ok pOut)
    (hcc : compile env child = .ok cOut)
    (hnodup : ((allParentMeasures env child).map (fun m => m.spec.element_name)).Nodup)
    (mp : MeasureInstance) (hmp : mp ∈ pOut.measure_instances)
    (mc : MeasureInstance) (hmc : mc ∈ cOut.measure_instances)
    (hname : mc.spec.element_name = mp.spec.element_name) :
    mp.aggregation_state.toInt ≤ mc.aggregation_state.toInt ∨
      (child.isJoinOnEntities ∧ mp.aggregation_state = .COMPLETE ∧
        mc.aggregation_state = .PARTIAL) := by
  have hmpAll : mp ∈ allParentMeasures env child :=
    mem_allParentMeasures env child parent hp pOut hpc mp hmp
  rcases compile_measures_trace env child cOut hcc mc hmc with
    hC | hEmpty | ⟨src, hsrcAll, hsp, hrel⟩
  · left
    rw [hC]
    exact AggregationState.toInt_le_two _
  · rw [hEmpty] at hp
    simp at hp
  · have hsrc_eq : src = mp := by
      apply List.inj_on_of_nodup_map hnodup hsrcAll hmpAll
      rw [hsp, hname]
    subst hsrc_eq
    rcases hrel with hst | ⟨hj, hsC, hcP⟩
    · left
      rw [hst]
    · exact Or.inr ⟨hj, hsC, hcP⟩

/-- Concrete environment for the C1 plans. -/
def c1Env : CompileEnv :=
  { resolver := sampleResolver
    aggTimeDimensionForMeasure := fun _ => "ds"
    aggTypeOfMeasure := fun _ => .SUM
    getMetric := fun _ => none }

/-- Fully aggregated concrete measure instance. -/
def c1Measure : MeasureInstance :=
  { spec := { element_name := "bookings" }, aggregation_state := .COMPLETE
    fill_nulls_with := none, column_name := "bookings" }

/-- Source data set of the C1 counterexample plan. -/
def c1Source : InstanceSet := { measure_instances := [c1Measure] }

/-- Counterexample plan: a join-on-entities node (with no join targets)
over a read source carrying a COMPLETE measure. -/
def c1Child : DataflowNode := .joinOnEntities (.readSource c1Source) .nil

/-- Counterexample for C1 as stated: along the edge from the read source
to the join-on-entities node, the measure named `bookings` is present in
both compiled outputs, with state COMPLETE in the parent and PARTIAL in
the child, so the aggregation state decreases along this edge. -/
theorem claim_C1_counterexample :
    DataflowNode.readSource c1Source ∈ parentsOf c1Child ∧
    compile c1Env (.readSource c1Source) = .ok c1Source ∧
    compile c1Env c1Child = .ok (visit_join_on_entities sampleResolver c1Source []) ∧
    c1Measure ∈ c1Source.measure_instances ∧
    ({ c1Measure with aggregation_state := .PARTIAL } : MeasureInstance) ∈
      (visit_join_on_entities sampleResolver c1Source []).measure_instances ∧
    ({ c1Measure with aggregation_state := .PARTIAL } :
        MeasureInstance).spec.element_name = c1Measure.spec.element_name ∧
    ¬ (c1Measure.aggregation_state.toInt ≤
        ({ c1Measure with aggregation_state := .PARTIAL } :
          MeasureInstance).aggregation_state.toInt) := by
  refine ⟨List.mem_cons_self _ _, rfl, rfl, by decide, by decide, by decide, by decide⟩

/-- Non-aggregated concrete measure instance for the C1 witness. -/
def c1wMeasure : MeasureInstance :=
  { spec := { element_name := "views" }, aggregation_state := .NON_AGGREGATED
    fill_nulls_with := none, column_name := "views" }

/-- Source data set of the C1 witness plan. -/
def c1wSource : InstanceSet := { measure_instances := [c1wMeasure] }

/-- Witness plan: the same join-on-entities shape over a NON_AGGREGATED
measure. -/
def c1wChild : DataflowNode := .joinOnEntities (.readSource c1wSource) .nil

/-- Witness for the amended C1 at a concrete edge. -/
theorem claim_C1_amended_state_monotonicity_witness :
    c1wMeasure.aggregation_state.toInt ≤
      ({ c1wMeasure with aggregation_state := .NON_AGGREGATED } :
        MeasureInstance).aggregation_state.toInt ∨
      (c1wChild.isJoinOnEntities ∧ c1wMeasure.aggregation_state = .COMPLETE ∧
        ({ c1wMeasure with aggregation_state := .NON_AGGREGATED } :
          MeasureInstance).aggregation_state = .PARTIAL) :=
  claim_C1_amended_state_monotonicity c1Env c1wChild (.readSource c1wSource)
    (List.mem_cons_self _ _) c1wSource (visit_join_on_entities sampleResolver c1wSource [])
    rfl rfl (by decide) c1wMeasure (by decide)
    { c1wMeasure with aggregation_state := .NON_AGGREGATED } (by decide) (by decide)

end MetricFlow
